import Mathlib

/-!
Shallow embedding of the e-rechnung-app core (TypeScript) in Lean 4.

Embedded source files:
  * `src/app/page.tsx` — data model, `calculateSummen`, `escapeXML`,
    `generateXRechnungXML` (UBL / XRechnung generator);
  * `src/lib/zugferd.ts` — `generateZUGFeRDXML` (CII / ZUGFeRD generator);
  * `src/lib/validation.ts` — `validateXRechnung`, `validateFormBasic`
    and their helper predicates.

JavaScript numbers are modelled as exact rationals (`ℚ`); all monetary
formulas of the code are pure arithmetic on such numbers, and the spec's
"within floating-point tolerance" identities are stated exactly over `ℚ`.
JavaScript template literals are modelled as string concatenation, in the
textual order of the template.
-/

namespace ERechnung

/- Batteries marks the arithmetic of `Rat` irreducible; evaluation of the
embedded functions on concrete inputs (for witnesses and counterexamples)
needs them to unfold. -/
attribute [local semireducible] Rat.ofScientific Rat.mul Rat.inv Rat.add Rat.sub

/-- Position type tag: `'L' | 'M' | 'F' | 'S'` (Lohn, Material, Fahrt, Sonstiges). -/
inductive PositionTyp where
  | L | M | F | S
deriving DecidableEq, Repr

/-- A line item (`interface Position` in `page.tsx` / `types.ts`). -/
structure Position where
  id : String
  bezeichnung : String
  typ : PositionTyp
  menge : ℚ
  einheit : String
  preis : ℚ
  ust : ℚ
deriving DecidableEq, Repr

/-- Seller record (`interface Verkaeufer`). -/
structure Verkaeufer where
  firma : String
  strasse : String
  plz : String
  ort : String
  ustId : String
  steuernummer : String
  iban : String
  bic : String
  bank : String
  handelsregister : String
  telefon : String
  email : String
deriving DecidableEq, Repr

/-- Buyer record (`interface Kaeufer`). -/
structure Kaeufer where
  firma : String
  strasse : String
  plz : String
  ort : String
  ustId : String
  ansprechpartner : String
  email : String
  kundennummer : String
deriving DecidableEq, Repr

/-- Invoice header (`interface Rechnung`). -/
structure Rechnung where
  nummer : String
  datum : String
  faelligkeit : String
  leistungszeitraum : String
  art : String
  leitwegId : String
  bestellnummer : String
deriving DecidableEq, Repr

/-- Totals record produced by `calculateSummen` (`interface Summen`). -/
structure Summen where
  netto : ℚ
  lohn : ℚ
  material : ℚ
  ust19 : ℚ
  ust7 : ℚ
deriving DecidableEq, Repr

/-- JavaScript string truthiness combined with the completeness test used in
all three consumers: `pos.bezeichnung && pos.menge > 0 && pos.preis > 0`. -/
def isComplete (pos : Position) : Bool :=
  pos.bezeichnung != "" && decide (0 < pos.menge) && decide (0 < pos.preis)

/-- `calculateSummen` (`page.tsx`): a `reduce` over the positions that skips
incomplete lines and accumulates net total, labor/material subtotals and the
per-line VAT amounts (`betrag * 0.19` / `betrag * 0.07`). -/
def calculateSummen (positionen : List Position) : Summen :=
  positionen.foldl
    (fun acc pos =>
      if isComplete pos then
        let betrag := pos.menge * pos.preis
        { netto := acc.netto + betrag
          lohn := if pos.typ = PositionTyp.L then acc.lohn + betrag else acc.lohn
          material := if pos.typ = PositionTyp.M then acc.material + betrag else acc.material
          ust19 := if pos.ust = 19 then acc.ust19 + betrag * (19/100) else acc.ust19
          ust7 := if pos.ust = 7 then acc.ust7 + betrag * (7/100) else acc.ust7 }
      else acc)
    { netto := 0, lohn := 0, material := 0, ust19 := 0, ust7 := 0 }

/-- The three per-rate net buckets accumulated at the top of both XML
generators (`let netto19 = 0, netto7 = 0, netto0 = 0; positionen.forEach ...`
in `page.tsx` and, with the same text, in `zugferd.ts`). -/
structure Buckets where
  netto19 : ℚ
  netto7 : ℚ
  netto0 : ℚ
deriving DecidableEq, Repr

/-- The aggregation loop shared (textually identical) by
`generateXRechnungXML` and `generateZUGFeRDXML`: complete lines route
`menge * preis` into the bucket for tax rate 19, 7, or anything else. -/
def computeBuckets (positionen : List Position) : Buckets :=
  positionen.foldl
    (fun b pos =>
      if isComplete pos then
        let betrag := pos.menge * pos.preis
        if pos.ust = 19 then { b with netto19 := b.netto19 + betrag }
        else if pos.ust = 7 then { b with netto7 := b.netto7 + betrag }
        else { b with netto0 := b.netto0 + betrag }
      else b)
    { netto19 := 0, netto7 := 0, netto0 := 0 }

/-- `nettoGesamt = netto19 + netto7 + netto0` as computed in both generators. -/
def nettoGesamt (b : Buckets) : ℚ := b.netto19 + b.netto7 + b.netto0

/-- `ust19 = netto19 * 0.19` as computed in both generators. -/
def ust19Amt (b : Buckets) : ℚ := b.netto19 * (19/100)

/-- `ust7 = netto7 * 0.07` as computed in both generators. -/
def ust7Amt (b : Buckets) : ℚ := b.netto7 * (7/100)

/-- `brutto = nettoGesamt + ust19 + ust7` as computed in both generators. -/
def brutto (b : Buckets) : ℚ := nettoGesamt b + ust19Amt b + ust7Amt b

/-- The sum of `menge * preis` over the complete positions selected by `sel`. -/
def sumAmounts (sel : Position → Bool) (positionen : List Position) : ℚ :=
  ((positionen.filter sel).map (fun p => p.menge * p.preis)).sum

/-- Selector: complete and tax rate exactly 19. -/
def sel19 (p : Position) : Bool := isComplete p && decide (p.ust = 19)

/-- Selector: complete and tax rate exactly 7. -/
def sel7 (p : Position) : Bool := isComplete p && decide (p.ust = 7)

/-- Selector: complete and tax rate neither 19 nor 7 (the "0 % bucket"). -/
def sel0 (p : Position) : Bool := isComplete p && !(decide (p.ust = 19)) && !(decide (p.ust = 7))

/-- JavaScript `a || b` on strings: the empty string is falsy. -/
def jsOr (a b : String) : String := if a = "" then b else a

/-- JavaScript `s.replace(/c/g, r)` for a single-character pattern `c`. -/
def jsReplaceAll (c : Char) (r : String) (s : String) : String :=
  String.mk (s.data.foldr (fun d acc => if d = c then r.data ++ acc else d :: acc) [])

/-- `escapeXML` (`page.tsx`, also imported by `zugferd.ts`): the five XML
metacharacters are replaced, in source order, by their entities. -/
def escapeXML (s : String) : String :=
  jsReplaceAll (Char.ofNat 39) "&apos;"
    (jsReplaceAll (Char.ofNat 34) "&quot;"
      (jsReplaceAll (Char.ofNat 62) "&gt;"
        (jsReplaceAll (Char.ofNat 60) "&lt;"
          (jsReplaceAll (Char.ofNat 38) "&amp;" s))))

/-- JavaScript `Number.prototype.toFixed(2)` on an (idealised, exact) number:
the integer closest to `|q| * 100`, ties to the larger, printed with two
decimals and the sign of `q`. -/
def toFixed2 (q : ℚ) : String :=
  let n : ℤ := ⌊|q| * 100 + 1/2⌋
  let a := n.natAbs / 100
  let c := n.natAbs % 100
  let s := toString a ++ "." ++ (if c < 10 then "0" ++ toString c else toString c)
  if q < 0 then "-" ++ s else s

/-- Number of decimal digits needed to print `q` as a finite decimal
(searched up to 30), if any. -/
def decDigits (q : ℚ) : Option ℕ := (List.range 31).find? (fun k => (q * 10 ^ k).den = 1)

/-- Left-pad a digit string with zeros up to length `k`. -/
def padZeros (k : ℕ) (s : String) : String :=
  String.mk (List.replicate (k - s.length) (Char.ofNat 48)) ++ s

/-- JavaScript number-to-string coercion for `${...}` interpolation of a raw
number, on the exact-rational model: integers print as integers, finite
decimals as minimal decimals. (A rational without a finite decimal expansion
cannot arise from decimal form input; it is printed as `num/den` here, while
JavaScript would print a 17-significant-digit approximation.) -/
def jsNumberToString (q : ℚ) : String :=
  match decDigits q with
  | some 0 => toString q.num
  | some (k + 1) =>
      let m := (q * 10 ^ (k + 1)).num.natAbs
      (if q < 0 then "-" else "")
        ++ toString (m / 10 ^ (k + 1)) ++ "." ++ padZeros (k + 1) (toString (m % 10 ^ (k + 1)))
  | none => toString q.num ++ "/" ++ toString q.den

/-- JavaScript `s.replace(/\s/g, '')` (used on IBAN/BIC). -/
def stripSpaces (s : String) : String := String.mk (s.data.filter (fun c => !c.isWhitespace))

/-- JavaScript `jsTrim s()`: strip leading and trailing whitespace. -/
def jsTrim (s : String) : String :=
  String.mk (((s.data.dropWhile Char.isWhitespace).reverse.dropWhile Char.isWhitespace).reverse)

/-- JavaScript `s.split(c)` for a single-character separator. -/
def splitOnChar (c : Char) (s : String) : List String :=
  (s.data.foldr
    (fun d acc => if d = c then [] :: acc else (d :: acc.headI) :: acc.tail)
    [[]]).map String.mk

/-- `formatCIIDate` (`zugferd.ts`): strips every dash from the date string. -/
def formatCIIDate (s : String) : String := String.mk (s.data.filter (fun c => !(c = Char.ofNat 45)))

/-- `EINHEIT_MAP`: unit-of-measure strings to UN/ECE Recommendation 20 codes. -/
def EINHEIT_MAP : List (String × String) :=
  [("Std", "HUR"), ("Stk", "H87"), ("m", "MTR"), ("m²", "MTK"),
   ("m³", "MTQ"), ("kg", "KGM"), ("Tag", "DAY"), ("Ltr", "LTR"), ("psch", "LS")]

/-- The lookup `EINHEIT_MAP[pos.einheit]` with JavaScript default "H87". -/
def einheitCode (e : String) : String := (EINHEIT_MAP.lookup e).getD "H87"

/-- The `<cbc:BuyerReference>` element of the UBL output
(`page.tsx`: `<cbc:BuyerReference>${rechnung.leitwegId || 'n/a'}</cbc:BuyerReference>`). -/
def ublBuyerReference (rechnung : Rechnung) : String :=
  "<cbc:BuyerReference>" ++ jsOr rechnung.leitwegId "n/a" ++ "</cbc:BuyerReference>"

/-- One `<cac:InvoiceLine>` of the UBL output (`positionenXML += ...`). -/
def ublLineXML (posNr : Nat) (pos : Position) : String :=
  let betrag := pos.menge * pos.preis
  "\n    <cac:InvoiceLine>\n        <cbc:ID>"
    ++ toString posNr
    ++ "</cbc:ID>\n        <cbc:InvoicedQuantity unitCode=\""
    ++ einheitCode pos.einheit
    ++ "\">"
    ++ toFixed2 pos.menge
    ++ "</cbc:InvoicedQuantity>\n        <cbc:LineExtensionAmount currencyID=\"EUR\">"
    ++ toFixed2 betrag
    ++ "</cbc:LineExtensionAmount>\n        <cac:Item>\n            <cbc:Name>"
    ++ escapeXML pos.bezeichnung
    ++ "</cbc:Name>\n            <cac:ClassifiedTaxCategory>\n                <cbc:ID>S</cbc:ID>\n                <cbc:Percent>"
    ++ jsNumberToString pos.ust
    ++ "</cbc:Percent>\n                <cac:TaxScheme><cbc:ID>VAT</cbc:ID></cac:TaxScheme>\n            </cac:ClassifiedTaxCategory>\n        </cac:Item>\n        <cac:Price><cbc:PriceAmount currencyID=\"EUR\">"
    ++ toFixed2 pos.preis
    ++ "</cbc:PriceAmount></cac:Price>\n    </cac:InvoiceLine>"

/-- The `positionenXML` accumulation loop of the UBL generator: complete
positions are emitted with a 1-based counter `posNr`, incomplete ones are
skipped. -/
def ublPositionenXML (positionen : List Position) : String :=
  (positionen.foldl
    (fun (st : Nat × String) pos =>
      if isComplete pos then (st.1 + 1, st.2 ++ ublLineXML (st.1 + 1) pos) else st)
    (0, "")).2

/-- The 19 % `<cac:TaxSubtotal>` block of the UBL output. -/
def ublTaxSub19 (b : Buckets) : String :=
  "\n        <cac:TaxSubtotal>\n            <cbc:TaxableAmount currencyID=\"EUR\">"
    ++ toFixed2 b.netto19
    ++ "</cbc:TaxableAmount>\n            <cbc:TaxAmount currencyID=\"EUR\">"
    ++ toFixed2 (ust19Amt b)
    ++ "</cbc:TaxAmount>\n            <cac:TaxCategory><cbc:ID>S</cbc:ID><cbc:Percent>19</cbc:Percent><cac:TaxScheme><cbc:ID>VAT</cbc:ID></cac:TaxScheme></cac:TaxCategory>\n        </cac:TaxSubtotal>"

/-- The 7 % `<cac:TaxSubtotal>` block of the UBL output. -/
def ublTaxSub7 (b : Buckets) : String :=
  "\n        <cac:TaxSubtotal>\n            <cbc:TaxableAmount currencyID=\"EUR\">"
    ++ toFixed2 b.netto7
    ++ "</cbc:TaxableAmount>\n            <cbc:TaxAmount currencyID=\"EUR\">"
    ++ toFixed2 (ust7Amt b)
    ++ "</cbc:TaxAmount>\n            <cac:TaxCategory><cbc:ID>S</cbc:ID><cbc:Percent>7</cbc:Percent><cac:TaxScheme><cbc:ID>VAT</cbc:ID></cac:TaxScheme></cac:TaxCategory>\n        </cac:TaxSubtotal>"

/-- The `taxSubtotals` accumulation of the UBL generator: a block for the
19 % bucket if nonzero and a block for the 7 % bucket if nonzero — the UBL
generator emits no subtotal for the 0 % bucket. -/
def ublTaxSubtotals (b : Buckets) : String :=
  (if 0 < b.netto19 then ublTaxSub19 b else "")
    ++ (if 0 < b.netto7 then ublTaxSub7 b else "")

/-- The `<cac:LegalMonetaryTotal>` block of the UBL output, carrying
`nettoGesamt` (twice) and `brutto` (twice), each via `toFixed(2)`. -/
def ublMonetaryTotal (b : Buckets) : String :=
  "<cac:LegalMonetaryTotal>\n        <cbc:LineExtensionAmount currencyID=\"EUR\">"
    ++ toFixed2 (nettoGesamt b)
    ++ "</cbc:LineExtensionAmount>\n        <cbc:TaxExclusiveAmount currencyID=\"EUR\">"
    ++ toFixed2 (nettoGesamt b)
    ++ "</cbc:TaxExclusiveAmount>\n        <cbc:TaxInclusiveAmount currencyID=\"EUR\">"
    ++ toFixed2 (brutto b)
    ++ "</cbc:TaxInclusiveAmount>\n        <cbc:PayableAmount currencyID=\"EUR\">"
    ++ toFixed2 (brutto b)
    ++ "</cbc:PayableAmount>\n    </cac:LegalMonetaryTotal>"

/-- `generateXRechnungXML` (`page.tsx`): the full UBL / XRechnung 3.0 XML
string, as the template literal of the source, split into the chunks above. -/
def generateXRechnungXML (rechnung : Rechnung) (verkaeufer : Verkaeufer)
    (kaeufer : Kaeufer) (positionen : List Position) : String :=
  let b := computeBuckets positionen
  "<?xml version=\"1.0\" encoding=\"UTF-8\"?>\n<Invoice xmlns=\"urn:oasis:names:specification:ubl:schema:xsd:Invoice-2\"\n         xmlns:cac=\"urn:oasis:names:specification:ubl:schema:xsd:CommonAggregateComponents-2\"\n         xmlns:cbc=\"urn:oasis:names:specification:ubl:schema:xsd:CommonBasicComponents-2\">\n    <cbc:CustomizationID>urn:cen.eu:en16931:2017#compliant#urn:xoev-de:kosit:standard:xrechnung_3.0</cbc:CustomizationID>\n    <cbc:ProfileID>urn:fdc:peppol.eu:2017:poacc:billing:01:1.0</cbc:ProfileID>\n    <cbc:ID>"
    ++ escapeXML rechnung.nummer
    ++ "</cbc:ID>\n    <cbc:IssueDate>"
    ++ rechnung.datum
    ++ "</cbc:IssueDate>\n    "
    ++ (if rechnung.faelligkeit != "" then
          "<cbc:DueDate>" ++ rechnung.faelligkeit ++ "</cbc:DueDate>"
        else "")
    ++ "\n    <cbc:InvoiceTypeCode>"
    ++ rechnung.art.take 3
    ++ "</cbc:InvoiceTypeCode>\n    <cbc:DocumentCurrencyCode>EUR</cbc:DocumentCurrencyCode>\n    "
    ++ ublBuyerReference rechnung
    ++ "\n    <cac:AccountingSupplierParty><cac:Party>\n        <cac:PostalAddress>\n            <cbc:StreetName>"
    ++ escapeXML verkaeufer.strasse
    ++ "</cbc:StreetName>\n            <cbc:CityName>"
    ++ escapeXML verkaeufer.ort
    ++ "</cbc:CityName>\n            <cbc:PostalZone>"
    ++ escapeXML verkaeufer.plz
    ++ "</cbc:PostalZone>\n            <cac:Country><cbc:IdentificationCode>DE</cbc:IdentificationCode></cac:Country>\n        </cac:PostalAddress>\n        "
    ++ (if verkaeufer.ustId != "" then
          "<cac:PartyTaxScheme><cbc:CompanyID>"
            ++ escapeXML verkaeufer.ustId
            ++ "</cbc:CompanyID><cac:TaxScheme><cbc:ID>VAT</cbc:ID></cac:TaxScheme></cac:PartyTaxScheme>"
        else "")
    ++ "\n        <cac:PartyLegalEntity><cbc:RegistrationName>"
    ++ escapeXML verkaeufer.firma
    ++ "</cbc:RegistrationName></cac:PartyLegalEntity>\n    </cac:Party></cac:AccountingSupplierParty>\n    <cac:AccountingCustomerParty><cac:Party>\n        <cac:PostalAddress>\n            <cbc:StreetName>"
    ++ escapeXML kaeufer.strasse
    ++ "</cbc:StreetName>\n            <cbc:CityName>"
    ++ escapeXML kaeufer.ort
    ++ "</cbc:CityName>\n            <cbc:PostalZone>"
    ++ escapeXML kaeufer.plz
    ++ "</cbc:PostalZone>\n            <cac:Country><cbc:IdentificationCode>DE</cbc:IdentificationCode></cac:Country>\n        </cac:PostalAddress>\n        "
    ++ (if kaeufer.ustId != "" then
          "<cac:PartyTaxScheme><cbc:CompanyID>"
            ++ escapeXML kaeufer.ustId
            ++ "</cbc:CompanyID><cac:TaxScheme><cbc:ID>VAT</cbc:ID></cac:TaxScheme></cac:PartyTaxScheme>"
        else "")
    ++ "\n        <cac:PartyLegalEntity><cbc:RegistrationName>"
    ++ escapeXML kaeufer.firma
    ++ "</cbc:RegistrationName></cac:PartyLegalEntity>\n    </cac:Party></cac:AccountingCustomerParty>\n    "
    ++ (if verkaeufer.iban != "" then
          "<cac:PaymentMeans><cbc:PaymentMeansCode>58</cbc:PaymentMeansCode><cac:PayeeFinancialAccount><cbc:ID>"
            ++ stripSpaces verkaeufer.iban
            ++ "</cbc:ID></cac:PayeeFinancialAccount></cac:PaymentMeans>"
        else "")
    ++ "\n    <cac:TaxTotal><cbc:TaxAmount currencyID=\"EUR\">"
    ++ toFixed2 (ust19Amt b + ust7Amt b)
    ++ "</cbc:TaxAmount>"
    ++ ublTaxSubtotals b
    ++ "</cac:TaxTotal>\n    "
    ++ ublMonetaryTotal b
    ++ ublPositionenXML positionen
    ++ "\n</Invoice>"

/-- One `<ram:IncludedSupplyChainTradeLineItem>` of the CII output
(`lineItems += ...` in `zugferd.ts`). -/
def ciiLineXML (posNr : Nat) (pos : Position) : String :=
  let betrag := pos.menge * pos.preis
  let taxCategoryCode := if pos.ust = 0 then "Z" else "S"
  "\n        <ram:IncludedSupplyChainTradeLineItem>\n            <ram:AssociatedDocumentLineDocument>\n                <ram:LineID>"
    ++ toString posNr
    ++ "</ram:LineID>\n            </ram:AssociatedDocumentLineDocument>\n            <ram:SpecifiedTradeProduct>\n                <ram:Name>"
    ++ escapeXML pos.bezeichnung
    ++ "</ram:Name>\n            </ram:SpecifiedTradeProduct>\n            <ram:SpecifiedLineTradeAgreement>\n                <ram:NetPriceProductTradePrice>\n                    <ram:ChargeAmount>"
    ++ toFixed2 pos.preis
    ++ "</ram:ChargeAmount>\n                </ram:NetPriceProductTradePrice>\n            </ram:SpecifiedLineTradeAgreement>\n            <ram:SpecifiedLineTradeDelivery>\n                <ram:BilledQuantity unitCode=\""
    ++ einheitCode pos.einheit
    ++ "\">"
    ++ toFixed2 pos.menge
    ++ "</ram:BilledQuantity>\n            </ram:SpecifiedLineTradeDelivery>\n            <ram:SpecifiedLineTradeSettlement>\n                <ram:ApplicableTradeTax>\n                    <ram:TypeCode>VAT</ram:TypeCode>\n                    <ram:CategoryCode>"
    ++ taxCategoryCode
    ++ "</ram:CategoryCode>\n                    <ram:RateApplicablePercent>"
    ++ jsNumberToString pos.ust
    ++ "</ram:RateApplicablePercent>\n                </ram:ApplicableTradeTax>\n                <ram:SpecifiedTradeSettlementLineMonetarySummation>\n                    <ram:LineTotalAmount>"
    ++ toFixed2 betrag
    ++ "</ram:LineTotalAmount>\n                </ram:SpecifiedTradeSettlementLineMonetarySummation>\n            </ram:SpecifiedLineTradeSettlement>\n        </ram:IncludedSupplyChainTradeLineItem>"

/-- The `lineItems` accumulation loop of the CII generator: complete
positions are emitted with a 1-based counter `posNr`, incomplete ones are
skipped. -/
def ciiLineItems (positionen : List Position) : String :=
  (positionen.foldl
    (fun (st : Nat × String) pos =>
      if isComplete pos then (st.1 + 1, st.2 ++ ciiLineXML (st.1 + 1) pos) else st)
    (0, "")).2

/-- The 19 % `<ram:ApplicableTradeTax>` block of the CII tax breakdown. -/
def ciiTax19 (b : Buckets) : String :=
  "\n            <ram:ApplicableTradeTax>\n                <ram:CalculatedAmount>"
    ++ toFixed2 (ust19Amt b)
    ++ "</ram:CalculatedAmount>\n                <ram:TypeCode>VAT</ram:TypeCode>\n                <ram:BasisAmount>"
    ++ toFixed2 b.netto19
    ++ "</ram:BasisAmount>\n                <ram:CategoryCode>S</ram:CategoryCode>\n                <ram:RateApplicablePercent>19</ram:RateApplicablePercent>\n            </ram:ApplicableTradeTax>"

/-- The 7 % `<ram:ApplicableTradeTax>` block of the CII tax breakdown. -/
def ciiTax7 (b : Buckets) : String :=
  "\n            <ram:ApplicableTradeTax>\n                <ram:CalculatedAmount>"
    ++ toFixed2 (ust7Amt b)
    ++ "</ram:CalculatedAmount>\n                <ram:TypeCode>VAT</ram:TypeCode>\n                <ram:BasisAmount>"
    ++ toFixed2 b.netto7
    ++ "</ram:BasisAmount>\n                <ram:CategoryCode>S</ram:CategoryCode>\n                <ram:RateApplicablePercent>7</ram:RateApplicablePercent>\n            </ram:ApplicableTradeTax>"

/-- The zero-rated (`Z`) `<ram:ApplicableTradeTax>` block of the CII tax
breakdown: tax `0.00`, basis `netto0`, category `Z`, percent `0`. -/
def ciiTaxZ (b : Buckets) : String :=
  "\n            <ram:ApplicableTradeTax>\n                <ram:CalculatedAmount>0.00</ram:CalculatedAmount>\n                <ram:TypeCode>VAT</ram:TypeCode>\n                <ram:BasisAmount>"
    ++ toFixed2 b.netto0
    ++ "</ram:BasisAmount>\n                <ram:CategoryCode>Z</ram:CategoryCode>\n                <ram:RateApplicablePercent>0</ram:RateApplicablePercent>\n            </ram:ApplicableTradeTax>"

/-- The `taxBreakdown` accumulation of the CII generator: one block per
nonzero bucket, including the `Z` block for the 0 % bucket. -/
def ciiTaxBreakdown (b : Buckets) : String :=
  (if 0 < b.netto19 then ciiTax19 b else "")
    ++ (if 0 < b.netto7 then ciiTax7 b else "")
    ++ (if 0 < b.netto0 then ciiTaxZ b else "")

/-- The `<ram:SpecifiedTradeSettlementHeaderMonetarySummation>` block of the
CII output, carrying `nettoGesamt` (twice), `ust19 + ust7`, and `brutto`
(twice), each via `toFixed(2)`. -/
def ciiMonetarySummation (b : Buckets) : String :=
  "<ram:SpecifiedTradeSettlementHeaderMonetarySummation>\n                <ram:LineTotalAmount>"
    ++ toFixed2 (nettoGesamt b)
    ++ "</ram:LineTotalAmount>\n                <ram:TaxBasisTotalAmount>"
    ++ toFixed2 (nettoGesamt b)
    ++ "</ram:TaxBasisTotalAmount>\n                <ram:TaxTotalAmount currencyID=\"EUR\">"
    ++ toFixed2 (ust19Amt b + ust7Amt b)
    ++ "</ram:TaxTotalAmount>\n                <ram:GrandTotalAmount>"
    ++ toFixed2 (brutto b)
    ++ "</ram:GrandTotalAmount>\n                <ram:DuePayableAmount>"
    ++ toFixed2 (brutto b)
    ++ "</ram:DuePayableAmount>\n            </ram:SpecifiedTradeSettlementHeaderMonetarySummation>"

/-- `generateZUGFeRDXML` (`zugferd.ts`): the full ZUGFeRD 2.2 / Factur-X CII
XML string, as the template literal of the source, split into the chunks
above. -/
def generateZUGFeRDXML (rechnung : Rechnung) (verkaeufer : Verkaeufer)
    (kaeufer : Kaeufer) (positionen : List Position) : String :=
  let b := computeBuckets positionen
  let typeCode := jsOr (rechnung.art.take 3) "380"
  "<?xml version=\"1.0\" encoding=\"UTF-8\"?>\n<rsm:CrossIndustryInvoice xmlns:rsm=\"urn:un:unece:uncefact:data:standard:CrossIndustryInvoice:100\"\n    xmlns:qdt=\"urn:un:unece:uncefact:data:standard:QualifiedDataType:100\"\n    xmlns:ram=\"urn:un:unece:uncefact:data:standard:ReusableAggregateBusinessInformationEntity:100\"\n    xmlns:xs=\"http://www.w3.org/2001/XMLSchema\"\n    xmlns:udt=\"urn:un:unece:uncefact:data:standard:UnqualifiedDataType:100\">\n    <rsm:ExchangedDocumentContext>\n        <ram:GuidelineSpecifiedDocumentContextParameter>\n            <ram:ID>urn:cen.eu:en16931:2017#conformant#urn:factur-x.eu:1p0:comfort</ram:ID>\n        </ram:GuidelineSpecifiedDocumentContextParameter>\n    </rsm:ExchangedDocumentContext>\n    <rsm:ExchangedDocument>\n        <ram:ID>"
    ++ escapeXML rechnung.nummer
    ++ "</ram:ID>\n        <ram:TypeCode>"
    ++ typeCode
    ++ "</ram:TypeCode>\n        <ram:IssueDateTime>\n            <udt:DateTimeString format=\"102\">"
    ++ formatCIIDate rechnung.datum
    ++ "</udt:DateTimeString>\n        </ram:IssueDateTime>\n    </rsm:ExchangedDocument>\n    <rsm:SupplyChainTradeTransaction>"
    ++ ciiLineItems positionen
    ++ "\n        <ram:ApplicableHeaderTradeAgreement>\n            "
    ++ (if rechnung.leitwegId != "" then
          "<ram:BuyerReference>" ++ escapeXML rechnung.leitwegId ++ "</ram:BuyerReference>"
        else "")
    ++ "\n            <ram:SellerTradeParty>\n                <ram:Name>"
    ++ escapeXML verkaeufer.firma
    ++ "</ram:Name>\n                <ram:PostalTradeAddress>\n                    <ram:PostcodeCode>"
    ++ escapeXML verkaeufer.plz
    ++ "</ram:PostcodeCode>\n                    <ram:LineOne>"
    ++ escapeXML verkaeufer.strasse
    ++ "</ram:LineOne>\n                    <ram:CityName>"
    ++ escapeXML verkaeufer.ort
    ++ "</ram:CityName>\n                    <ram:CountryID>DE</ram:CountryID>\n                </ram:PostalTradeAddress>\n                "
    ++ (if verkaeufer.email != "" then
          "<ram:URIUniversalCommunication>\n                    <ram:URIID schemeID=\"EM\">"
            ++ escapeXML verkaeufer.email
            ++ "</ram:URIID>\n                </ram:URIUniversalCommunication>"
        else "")
    ++ "\n                "
    ++ (if verkaeufer.ustId != "" then
          "<ram:SpecifiedTaxRegistration>\n                    <ram:ID schemeID=\"VA\">"
            ++ escapeXML verkaeufer.ustId
            ++ "</ram:ID>\n                </ram:SpecifiedTaxRegistration>"
        else "")
    ++ "\n                "
    ++ (if verkaeufer.steuernummer != "" then
          "<ram:SpecifiedTaxRegistration>\n                    <ram:ID schemeID=\"FC\">"
            ++ escapeXML verkaeufer.steuernummer
            ++ "</ram:ID>\n                </ram:SpecifiedTaxRegistration>"
        else "")
    ++ "\n            </ram:SellerTradeParty>\n            <ram:BuyerTradeParty>\n                <ram:Name>"
    ++ escapeXML kaeufer.firma
    ++ "</ram:Name>\n                <ram:PostalTradeAddress>\n                    <ram:PostcodeCode>"
    ++ escapeXML kaeufer.plz
    ++ "</ram:PostcodeCode>\n                    <ram:LineOne>"
    ++ escapeXML kaeufer.strasse
    ++ "</ram:LineOne>\n                    <ram:CityName>"
    ++ escapeXML kaeufer.ort
    ++ "</ram:CityName>\n                    <ram:CountryID>DE</ram:CountryID>\n                </ram:PostalTradeAddress>\n                "
    ++ (if kaeufer.email != "" then
          "<ram:URIUniversalCommunication>\n                    <ram:URIID schemeID=\"EM\">"
            ++ escapeXML kaeufer.email
            ++ "</ram:URIID>\n                </ram:URIUniversalCommunication>"
        else "")
    ++ "\n                "
    ++ (if kaeufer.ustId != "" then
          "<ram:SpecifiedTaxRegistration>\n                    <ram:ID schemeID=\"VA\">"
            ++ escapeXML kaeufer.ustId
            ++ "</ram:ID>\n                </ram:SpecifiedTaxRegistration>"
        else "")
    ++ "\n            </ram:BuyerTradeParty>\n            "
    ++ (if rechnung.bestellnummer != "" then
          "<ram:BuyerOrderReferencedDocument>\n                <ram:IssuerAssignedID>"
            ++ escapeXML rechnung.bestellnummer
            ++ "</ram:IssuerAssignedID>\n            </ram:BuyerOrderReferencedDocument>"
        else "")
    ++ "\n        </ram:ApplicableHeaderTradeAgreement>\n        <ram:ApplicableHeaderTradeDelivery>\n            "
    ++ (if rechnung.leistungszeitraum != "" then
          "<ram:ActualDeliverySupplyChainEvent>\n                <ram:OccurrenceDateTime>\n                    <udt:DateTimeString format=\"102\">"
            ++ formatCIIDate rechnung.datum
            ++ "</udt:DateTimeString>\n                </ram:OccurrenceDateTime>\n            </ram:ActualDeliverySupplyChainEvent>"
        else "")
    ++ "\n        </ram:ApplicableHeaderTradeDelivery>\n        <ram:ApplicableHeaderTradeSettlement>\n            <ram:InvoiceCurrencyCode>EUR</ram:InvoiceCurrencyCode>\n            "
    ++ (if verkaeufer.iban != "" then
          "<ram:SpecifiedTradeSettlementPaymentMeans>\n                <ram:TypeCode>58</ram:TypeCode>\n                <ram:PayeePartyCreditorFinancialAccount>\n                    <ram:IBANID>"
            ++ stripSpaces verkaeufer.iban
            ++ "</ram:IBANID>\n                </ram:PayeePartyCreditorFinancialAccount>\n                "
            ++ (if verkaeufer.bic != "" then
                  "<ram:PayeeSpecifiedCreditorFinancialInstitution>\n                    <ram:BICID>"
                    ++ stripSpaces verkaeufer.bic
                    ++ "</ram:BICID>\n                </ram:PayeeSpecifiedCreditorFinancialInstitution>"
                else "")
            ++ "\n            </ram:SpecifiedTradeSettlementPaymentMeans>"
        else "")
    ++ ciiTaxBreakdown b
    ++ "\n            "
    ++ (if rechnung.faelligkeit != "" then
          "<ram:SpecifiedTradePaymentTerms>\n                <ram:DueDateDateTime>\n                    <udt:DateTimeString format=\"102\">"
            ++ formatCIIDate rechnung.faelligkeit
            ++ "</udt:DateTimeString>\n                </ram:DueDateDateTime>\n            </ram:SpecifiedTradePaymentTerms>"
        else "")
    ++ "\n            "
    ++ ciiMonetarySummation b
    ++ "\n        </ram:ApplicableHeaderTradeSettlement>\n    </rsm:SupplyChainTradeTransaction>\n</rsm:CrossIndustryInvoice>"

-- ============================================================================
-- Validation engine (`src/lib/validation.ts`)
-- ============================================================================

/-- Message severity of the validation engine. -/
inductive Severity where
  | error | warning | info
deriving DecidableEq, Repr

/-- `interface ValidationMessage` (`types.ts`). -/
structure ValidationMessage where
  code : String
  field : Option String
  message : String
  severity : Severity
  btNumber : Option String
deriving DecidableEq, Repr

/-- `interface ValidationResult` (`types.ts`). -/
structure ValidationResult where
  isValid : Bool
  errors : List ValidationMessage
  warnings : List ValidationMessage
  infos : List ValidationMessage
deriving DecidableEq, Repr

/-- `isValidGermanPLZ`: the trimmed postal code is exactly five digits. -/
def isValidGermanPLZ (plz : String) : Bool :=
  (jsTrim plz).length == 5 && (jsTrim plz).data.all Char.isDigit

/-- Shape test of `isValidDate`: the ten-character pattern dddd-dd-dd. -/
def isYYYYMMDD (s : String) : Bool :=
  match s.data with
  | [y1, y2, y3, y4, c1, m1, m2, c2, d1, d2] =>
      y1.isDigit && y2.isDigit && y3.isDigit && y4.isDigit
        && c1 == Char.ofNat 45 && m1.isDigit && m2.isDigit
        && c2 == Char.ofNat 45 && d1.isDigit && d2.isDigit
  | _ => false

/-- Numeric value of a decimal digit character. -/
def digitVal (c : Char) : Nat := c.toNat - 48

/-- Read year, month and day from a dddd-dd-dd string. -/
def parseYMD (s : String) : Nat × Nat × Nat :=
  match s.data with
  | [y1, y2, y3, y4, _, m1, m2, _, d1, d2] =>
      (1000 * digitVal y1 + 100 * digitVal y2 + 10 * digitVal y3 + digitVal y4,
       10 * digitVal m1 + digitVal m2, 10 * digitVal d1 + digitVal d2)
  | _ => (0, 0, 0)

/-- Gregorian leap-year rule. -/
def isLeap (y : Nat) : Bool := (y % 4 == 0 && y % 100 != 0) || y % 400 == 0

/-- Days in a month of the Gregorian calendar. -/
def daysInMonth (y m : Nat) : Nat :=
  if m = 2 then (if isLeap y then 29 else 28)
  else if m = 4 ∨ m = 6 ∨ m = 9 ∨ m = 11 then 30 else 31

/-- The `!isNaN(new Date(dateStr).getTime())` step of `isValidDate`:
ECMAScript rejects an ISO `YYYY-MM-DD` string whose month or day is out of
calendar range, modelled as the corresponding range check. -/
def jsDateInRange (s : String) : Bool :=
  let ymd := parseYMD s
  1 ≤ ymd.2.1 && ymd.2.1 ≤ 12 && 1 ≤ ymd.2.2 && ymd.2.2 ≤ daysInMonth ymd.1 ymd.2.1

/-- `isValidDate` (`validation.ts`): nonempty, matches dddd-dd-dd, and parses
to a valid date. -/
def isValidDate (s : String) : Bool := s != "" && isYYYYMMDD s && jsDateInRange s

/-- ASCII upper-casing (JavaScript `toUpperCase` on the relevant inputs). -/
def jsUpper (s : String) : String := String.mk (s.data.map Char.toUpper)

/-- `isValidVATId`: after stripping whitespace and upper-casing, `DE` plus
nine digits. -/
def isValidVATId (vatId : String) : Bool :=
  match (jsUpper (stripSpaces vatId)).data with
  | 'D' :: 'E' :: rest => rest.length == 9 && rest.all Char.isDigit
  | _ => false

/-- `isValidIBAN`: two letters, two digits, 1 to 30 alphanumerics; a German
IBAN must have 22 characters in total. -/
def isValidIBAN (iban : String) : Bool :=
  let cleaned := jsUpper (stripSpaces iban)
  let basic :=
    match cleaned.data with
    | a :: b :: c :: d :: rest =>
        a.isUpper && b.isUpper && c.isDigit && d.isDigit
          && decide (1 ≤ rest.length) && decide (rest.length ≤ 30)
          && rest.all (fun x => x.isUpper || x.isDigit)
    | _ => false
  if basic = false then false
  else if "DE".data.isPrefixOf cleaned.data && cleaned.length != 22 then false
  else true

/-- `isValidEmail` (`validation.ts`): the regex asks for a nonempty local
part, a single at-sign, and a domain containing a dot with at least one
non-space non-at character on each side. -/
def isValidEmail (email : String) : Bool :=
  match splitOnChar (Char.ofNat 64) email with
  | [l, r] =>
      decide (0 < l.length) && l.data.all (fun c => !c.isWhitespace)
        && r.data.all (fun c => !c.isWhitespace)
        && (match r.data with
            | [] => false
            | _ :: rest => rest.dropLast.contains (Char.ofNat 46))
  | _ => false

/-- `isValidLeitwegId`: trimmed, at least two dash-separated nonempty
alphanumeric segments, and at least five characters long. -/
def isValidLeitwegId (leitwegId : String) : Bool :=
  let cleaned := jsTrim leitwegId
  let segs := splitOnChar (Char.ofNat 45) cleaned
  decide (2 ≤ segs.length)
    && segs.all (fun seg => seg != "" && seg.data.all (fun c => c.isAlpha || c.isDigit))
    && decide (5 ≤ cleaned.length)

/-- BR-01: invoice number required. -/
def valErrNummer (rechnung : Rechnung) : List ValidationMessage :=
  if rechnung.nummer = "" ∨ jsTrim rechnung.nummer = "" then
    [{ code := "BR-01", field := some "rechnung.nummer",
       message := "Rechnungsnummer ist erforderlich", severity := .error,
       btNumber := some "BT-1" }]
  else []

/-- BR-02 / BR-02-FORMAT: issue date required and well-formed. -/
def valErrDatum (rechnung : Rechnung) : List ValidationMessage :=
  if rechnung.datum = "" then
    [{ code := "BR-02", field := some "rechnung.datum",
       message := "Rechnungsdatum ist erforderlich", severity := .error,
       btNumber := some "BT-2" }]
  else if isValidDate rechnung.datum = false then
    [{ code := "BR-02-FORMAT", field := some "rechnung.datum",
       message := "Rechnungsdatum hat ungültiges Format (YYYY-MM-DD erwartet)",
       severity := .error, btNumber := some "BT-2" }]
  else []

/-- BR-03 (warning): type code should be a known code. -/
def valWarnArt (rechnung : Rechnung) : List ValidationMessage :=
  if rechnung.art.take 3 = "" ∨ ¬ (rechnung.art.take 3 ∈ ["380", "381", "384", "389"]) then
    [{ code := "BR-03", field := some "rechnung.art",
       message := "Rechnungsart sollte einen gültigen Code haben (380=Rechnung, 381=Gutschrift)",
       severity := .warning, btNumber := some "BT-3" }]
  else []

/-- INFO-BT9: due date recommended. -/
def valInfoFaelligkeit (rechnung : Rechnung) : List ValidationMessage :=
  if rechnung.faelligkeit = "" then
    [{ code := "INFO-BT9", field := some "rechnung.faelligkeit",
       message := "Fälligkeitsdatum wird empfohlen", severity := .info,
       btNumber := some "BT-9" }]
  else []

/-- BR-DE-15 (warning): Leitweg-ID absent. -/
def valWarnLeitweg (rechnung : Rechnung) : List ValidationMessage :=
  if rechnung.leitwegId = "" ∨ jsTrim rechnung.leitwegId = "" then
    [{ code := "BR-DE-15", field := some "rechnung.leitwegId",
       message := "Leitweg-ID ist für öffentliche Auftraggeber erforderlich",
       severity := .warning, btNumber := some "BT-10" }]
  else []

/-- BR-DE-15-FORMAT (error): Leitweg-ID present but malformed. -/
def valErrLeitweg (rechnung : Rechnung) : List ValidationMessage :=
  if ¬ (rechnung.leitwegId = "" ∨ jsTrim rechnung.leitwegId = "")
      ∧ isValidLeitwegId rechnung.leitwegId = false then
    [{ code := "BR-DE-15-FORMAT", field := some "rechnung.leitwegId",
       message := "Leitweg-ID hat ungültiges Format. Erwartetes Format: XX-XXXXXXXX-XX oder ähnlich",
       severity := .error, btNumber := some "BT-10" }]
  else []

/-- BR-04: seller name required. -/
def valErrVFirma (verkaeufer : Verkaeufer) : List ValidationMessage :=
  if verkaeufer.firma = "" ∨ jsTrim verkaeufer.firma = "" then
    [{ code := "BR-04", field := some "verkaeufer.firma",
       message := "Verkäufer-Firmenname ist erforderlich", severity := .error,
       btNumber := some "BT-27" }]
  else []

/-- BR-05: seller street required. -/
def valErrVStrasse (verkaeufer : Verkaeufer) : List ValidationMessage :=
  if verkaeufer.strasse = "" ∨ jsTrim verkaeufer.strasse = "" then
    [{ code := "BR-05", field := some "verkaeufer.strasse",
       message := "Verkäufer-Straße ist erforderlich", severity := .error,
       btNumber := some "BT-35" }]
  else []

/-- BR-06: seller city required. -/
def valErrVOrt (verkaeufer : Verkaeufer) : List ValidationMessage :=
  if verkaeufer.ort = "" ∨ jsTrim verkaeufer.ort = "" then
    [{ code := "BR-06", field := some "verkaeufer.ort",
       message := "Verkäufer-Ort ist erforderlich", severity := .error,
       btNumber := some "BT-37" }]
  else []

/-- BR-07: seller postal code required. -/
def valErrVPlz (verkaeufer : Verkaeufer) : List ValidationMessage :=
  if verkaeufer.plz = "" ∨ jsTrim verkaeufer.plz = "" then
    [{ code := "BR-07", field := some "verkaeufer.plz",
       message := "Verkäufer-Postleitzahl ist erforderlich", severity := .error,
       btNumber := some "BT-38" }]
  else []

/-- BR-07-FORMAT (warning): seller postal code should be five digits. -/
def valWarnVPlz (verkaeufer : Verkaeufer) : List ValidationMessage :=
  if ¬ (verkaeufer.plz = "" ∨ jsTrim verkaeufer.plz = "")
      ∧ isValidGermanPLZ verkaeufer.plz = false then
    [{ code := "BR-07-FORMAT", field := some "verkaeufer.plz",
       message := "Verkäufer-PLZ sollte 5 Ziffern haben (deutsches Format)",
       severity := .warning, btNumber := some "BT-38" }]
  else []

/-- BR-CO-09: VAT identifier or tax number required. -/
def valErrCO09 (verkaeufer : Verkaeufer) : List ValidationMessage :=
  if (verkaeufer.ustId = "" ∨ jsTrim verkaeufer.ustId = "")
      ∧ (verkaeufer.steuernummer = "" ∨ jsTrim verkaeufer.steuernummer = "") then
    [{ code := "BR-CO-09", field := some "verkaeufer.ustId",
       message := "USt-IdNr. oder Steuernummer des Verkäufers ist erforderlich",
       severity := .error, btNumber := some "BT-31/BT-32" }]
  else []

/-- BR-DE-14 (warning): VAT identifier format. -/
def valWarnVatId (verkaeufer : Verkaeufer) : List ValidationMessage :=
  if verkaeufer.ustId ≠ "" ∧ isValidVATId verkaeufer.ustId = false then
    [{ code := "BR-DE-14", field := some "verkaeufer.ustId",
       message := "USt-IdNr. Format möglicherweise ungültig. Erwartetes Format: DE + 9 Ziffern",
       severity := .warning, btNumber := some "BT-31" }]
  else []

/-- INFO-BT84 (warning): IBAN recommended. -/
def valWarnIbanMissing (verkaeufer : Verkaeufer) : List ValidationMessage :=
  if verkaeufer.iban = "" ∨ jsTrim verkaeufer.iban = "" then
    [{ code := "INFO-BT84", field := some "verkaeufer.iban",
       message := "IBAN wird für Zahlungsinformationen empfohlen",
       severity := .warning, btNumber := some "BT-84" }]
  else []

/-- BR-DE-19 (error): IBAN present but malformed. -/
def valErrIban (verkaeufer : Verkaeufer) : List ValidationMessage :=
  if ¬ (verkaeufer.iban = "" ∨ jsTrim verkaeufer.iban = "")
      ∧ isValidIBAN verkaeufer.iban = false then
    [{ code := "BR-DE-19", field := some "verkaeufer.iban",
       message := "IBAN hat ungültiges Format", severity := .error,
       btNumber := some "BT-84" }]
  else []

/-- FORMAT-EMAIL-SELLER (warning). -/
def valWarnVEmail (verkaeufer : Verkaeufer) : List ValidationMessage :=
  if verkaeufer.email ≠ "" ∧ isValidEmail verkaeufer.email = false then
    [{ code := "FORMAT-EMAIL-SELLER", field := some "verkaeufer.email",
       message := "E-Mail-Adresse des Verkäufers hat ungültiges Format",
       severity := .warning, btNumber := none }]
  else []

/-- BR-08: buyer name required. -/
def valErrKFirma (kaeufer : Kaeufer) : List ValidationMessage :=
  if kaeufer.firma = "" ∨ jsTrim kaeufer.firma = "" then
    [{ code := "BR-08", field := some "kaeufer.firma",
       message := "Käufer-Firmenname ist erforderlich", severity := .error,
       btNumber := some "BT-44" }]
  else []

/-- BR-09: buyer street required. -/
def valErrKStrasse (kaeufer : Kaeufer) : List ValidationMessage :=
  if kaeufer.strasse = "" ∨ jsTrim kaeufer.strasse = "" then
    [{ code := "BR-09", field := some "kaeufer.strasse",
       message := "Käufer-Straße ist erforderlich", severity := .error,
       btNumber := some "BT-50" }]
  else []

/-- BR-10: buyer city required. -/
def valErrKOrt (kaeufer : Kaeufer) : List ValidationMessage :=
  if kaeufer.ort = "" ∨ jsTrim kaeufer.ort = "" then
    [{ code := "BR-10", field := some "kaeufer.ort",
       message := "Käufer-Ort ist erforderlich", severity := .error,
       btNumber := some "BT-52" }]
  else []

/-- BR-11: buyer postal code required. -/
def valErrKPlz (kaeufer : Kaeufer) : List ValidationMessage :=
  if kaeufer.plz = "" ∨ jsTrim kaeufer.plz = "" then
    [{ code := "BR-11", field := some "kaeufer.plz",
       message := "Käufer-Postleitzahl ist erforderlich", severity := .error,
       btNumber := some "BT-53" }]
  else []

/-- BR-11-FORMAT (warning): buyer postal code should be five digits. -/
def valWarnKPlz (kaeufer : Kaeufer) : List ValidationMessage :=
  if ¬ (kaeufer.plz = "" ∨ jsTrim kaeufer.plz = "")
      ∧ isValidGermanPLZ kaeufer.plz = false then
    [{ code := "BR-11-FORMAT", field := some "kaeufer.plz",
       message := "Käufer-PLZ sollte 5 Ziffern haben (deutsches Format)",
       severity := .warning, btNumber := some "BT-53" }]
  else []

/-- FORMAT-EMAIL-BUYER (warning). -/
def valWarnKEmail (kaeufer : Kaeufer) : List ValidationMessage :=
  if kaeufer.email ≠ "" ∧ isValidEmail kaeufer.email = false then
    [{ code := "FORMAT-EMAIL-BUYER", field := some "kaeufer.email",
       message := "E-Mail-Adresse des Käufers hat ungültiges Format",
       severity := .warning, btNumber := none }]
  else []

/-- `validPositions`: the completeness filter of the validation engine
(the same predicate as in the generators). -/
def validPositions (positionen : List Position) : List Position :=
  positionen.filter isComplete

/-- The BR-16 message. -/
def msgBR16 : ValidationMessage :=
  { code := "BR-16", field := some "positionen",
    message := "Mindestens eine vollständige Position ist erforderlich",
    severity := .error, btNumber := some "BG-25" }

/-- BR-16: at least one complete position required. -/
def valErrNoPositions (positionen : List Position) : List ValidationMessage :=
  if (validPositions positionen).length = 0 then [msgBR16]
  else []

/-- Per-line errors BR-22 / BR-26 / BR-25 at 0-based `index`. -/
def valErrLine (index : Nat) (pos : Position) : List ValidationMessage :=
  (if pos.menge ≤ 0 then
    [{ code := "BR-22", field := some ("positionen." ++ toString index ++ ".menge"),
       message := "Position " ++ toString (index + 1) ++ ": Menge muss größer als 0 sein",
       severity := .error, btNumber := some "BT-129" }]
  else [])
  ++ (if pos.preis < 0 then
    [{ code := "BR-26", field := some ("positionen." ++ toString index ++ ".preis"),
       message := "Position " ++ toString (index + 1) ++ ": Preis darf nicht negativ sein",
       severity := .error, btNumber := some "BT-146" }]
  else [])
  ++ (if pos.bezeichnung = "" ∨ jsTrim pos.bezeichnung = "" then
    [{ code := "BR-25", field := some ("positionen." ++ toString index ++ ".bezeichnung"),
       message := "Position " ++ toString (index + 1) ++ ": Bezeichnung ist erforderlich",
       severity := .error, btNumber := some "BT-153" }]
  else [])

/-- Per-line warning BR-CO-04 for a tax rate outside 0, 7, 19. -/
def valWarnLine (index : Nat) (pos : Position) : List ValidationMessage :=
  if ¬ (pos.ust = 0 ∨ pos.ust = 7 ∨ pos.ust = 19) then
    [{ code := "BR-CO-04", field := some ("positionen." ++ toString index ++ ".ust"),
       message := "Position " ++ toString (index + 1) ++ ": Ungewöhnlicher USt-Satz "
         ++ jsNumberToString pos.ust ++ "%",
       severity := .warning, btNumber := some "BT-151" }]
  else []

/-- The per-line error pass over `validPositions`. -/
def valLineErrors (positionen : List Position) : List ValidationMessage :=
  ((validPositions positionen).enum).flatMap (fun ip => valErrLine ip.1 ip.2)

/-- The per-line warning pass over `validPositions`. -/
def valLineWarnings (positionen : List Position) : List ValidationMessage :=
  ((validPositions positionen).enum).flatMap (fun ip => valWarnLine ip.1 ip.2)

/-- The validation engine recomputes the per-rate buckets over the already
filtered `validPositions` (no inner completeness test). -/
def valBuckets (positionen : List Position) : Buckets :=
  (validPositions positionen).foldl
    (fun b pos =>
      let betrag := pos.menge * pos.preis
      if pos.ust = 19 then { b with netto19 := b.netto19 + betrag }
      else if pos.ust = 7 then { b with netto7 := b.netto7 + betrag }
      else { b with netto0 := b.netto0 + betrag })
    { netto19 := 0, netto7 := 0, netto0 := 0 }

/-- CALC-INFO: tax-plausibility advisory
(`calculatedUst < nettoGesamt * 0.06` under nonzero gross and a taxed bucket). -/
def valInfoCalc (positionen : List Position) : List ValidationMessage :=
  let b := valBuckets positionen
  if 0 < brutto b ∧ (0 < b.netto19 ∨ 0 < b.netto7)
      ∧ ust19Amt b + ust7Amt b < nettoGesamt b * (6/100) then
    [{ code := "CALC-INFO", field := some "summen",
       message := "USt-Berechnung geprüft. Bei Rundungsdifferenzen bitte Einzelbeträge prüfen.",
       severity := .info, btNumber := none }]
  else []

/-- `validateXRechnung` (`validation.ts`): all checks run unconditionally, in
source order, into the three message lists; `isValid` is
`errors.length === 0`. -/
def validateXRechnung (rechnung : Rechnung) (verkaeufer : Verkaeufer)
    (kaeufer : Kaeufer) (positionen : List Position) : ValidationResult :=
  let errors :=
    valErrNummer rechnung ++ valErrDatum rechnung ++ valErrLeitweg rechnung
      ++ valErrVFirma verkaeufer ++ valErrVStrasse verkaeufer ++ valErrVOrt verkaeufer
      ++ valErrVPlz verkaeufer ++ valErrCO09 verkaeufer ++ valErrIban verkaeufer
      ++ valErrKFirma kaeufer ++ valErrKStrasse kaeufer ++ valErrKOrt kaeufer
      ++ valErrKPlz kaeufer ++ valErrNoPositions positionen ++ valLineErrors positionen
  let warnings :=
    valWarnArt rechnung ++ valWarnLeitweg rechnung ++ valWarnVPlz verkaeufer
      ++ valWarnVatId verkaeufer ++ valWarnIbanMissing verkaeufer ++ valWarnVEmail verkaeufer
      ++ valWarnKPlz kaeufer ++ valWarnKEmail kaeufer ++ valLineWarnings positionen
  let infos := valInfoFaelligkeit rechnung ++ valInfoCalc positionen
  { isValid := errors.length == 0, errors := errors, warnings := warnings, infos := infos }

/-- `validateFormBasic` (`validation.ts`): the lightweight field-presence
check used to gate export, returning German field labels. -/
def validateFormBasic (rechnung : Rechnung) (verkaeufer : Verkaeufer)
    (kaeufer : Kaeufer) (positionen : List Position) : List String :=
  (if rechnung.nummer = "" then ["Rechnungsnummer"] else [])
    ++ (if rechnung.datum = "" then ["Rechnungsdatum"] else [])
    ++ (if verkaeufer.firma = "" then ["Ihre Firma"] else [])
    ++ (if verkaeufer.strasse = "" then ["Ihre Straße"] else [])
    ++ (if verkaeufer.plz = "" ∨ verkaeufer.ort = "" then ["Ihre PLZ/Ort"] else [])
    ++ (if verkaeufer.ustId = "" ∧ verkaeufer.steuernummer = "" then ["USt-ID oder Steuernummer"] else [])
    ++ (if kaeufer.firma = "" then ["Kunde: Firma"] else [])
    ++ (if kaeufer.strasse = "" then ["Kunde: Straße"] else [])
    ++ (if kaeufer.plz = "" ∨ kaeufer.ort = "" then ["Kunde: PLZ/Ort"] else [])
    ++ (if positionen.any isComplete = false then ["Mind. 1 Position"] else [])

/-- Substring test used to state facts about concrete generated XML. -/
def containsSub (haystack needle : String) : Bool :=
  haystack.data.tails.any (fun t => needle.data.isPrefixOf t)

/-- Selector: complete and category Lohn (labor). -/
def selL (p : Position) : Bool := isComplete p && decide (p.typ = PositionTyp.L)

/-- Selector: complete and category Material. -/
def selM (p : Position) : Bool := isComplete p && decide (p.typ = PositionTyp.M)

-- ============================================================================
-- Concrete example models (spec §8, example scenarios)
-- ============================================================================

/-- Scenario 1 line item: Beratung, 2 Std at 100 €, 19 %. -/
def exPos : Position :=
  { id := "1", bezeichnung := "Beratung", typ := .L, menge := 2, einheit := "Std",
    preis := 100, ust := 19 }

/-- Scenario 1 header. -/
def exRechnung : Rechnung :=
  { nummer := "RE-2026-0001", datum := "2026-01-15", faelligkeit := "",
    leistungszeitraum := "", art := "380 - Rechnung", leitwegId := "", bestellnummer := "" }

/-- Scenario 1 seller. -/
def exVerkaeufer : Verkaeufer :=
  { firma := "Handwerk GmbH", strasse := "Musterweg 1", plz := "80331", ort := "München",
    ustId := "DE123456789", steuernummer := "", iban := "", bic := "", bank := "",
    handelsregister := "", telefon := "", email := "" }

/-- Scenario 1 buyer. -/
def exKaeufer : Kaeufer :=
  { firma := "Muster AG", strasse := "Beispielstraße 2", plz := "80333", ort := "München",
    ustId := "", ansprechpartner := "", email := "", kundennummer := "" }

/-- An incomplete line item (empty description). -/
def exPosIncomplete : Position :=
  { id := "2", bezeichnung := "", typ := .M, menge := 1, einheit := "Stk",
    preis := 10, ust := 19 }

/-- Scenario 3 line item: quantity 0, otherwise complete. -/
def exPosMenge0 : Position :=
  { id := "1", bezeichnung := "Beratung", typ := .L, menge := 0, einheit := "Std",
    preis := 100, ust := 19 }

/-- A complete zero-rated line item. -/
def exPosZero : Position :=
  { id := "1", bezeichnung := "Vermietung", typ := .S, menge := 1, einheit := "Stk",
    preis := 50, ust := 0 }

/-- Scenario 1 header with a Leitweg-ID containing an ampersand. -/
def exRechnungAmp : Rechnung := { exRechnung with leitwegId := "99&9-11" }

/-- Scenario 1 buyer with a customer reference number. -/
def exKaeuferKdNr : Kaeufer := { exKaeufer with kundennummer := "K-123" }

/-- Scenario 1 seller with a malformed IBAN. -/
def exVerkaeuferBadIban : Verkaeufer := { exVerkaeufer with iban := "DE12" }

/-- Scenario 2 seller: VAT-ID and tax number both empty. -/
def exVerkaeuferNoTaxId : Verkaeufer := { exVerkaeufer with ustId := "", steuernummer := "" }

-- THEOREM_SECTION

theorem computeBuckets_go (positionen : List Position) (b : Buckets) :
    positionen.foldl
      (fun b pos =>
        if isComplete pos then
          let betrag := pos.menge * pos.preis
          if pos.ust = 19 then { b with netto19 := b.netto19 + betrag }
          else if pos.ust = 7 then { b with netto7 := b.netto7 + betrag }
          else { b with netto0 := b.netto0 + betrag }
        else b) b
    = { netto19 := b.netto19 + sumAmounts sel19 positionen
        netto7 := b.netto7 + sumAmounts sel7 positionen
        netto0 := b.netto0 + sumAmounts sel0 positionen } := by
  induction positionen generalizing b with
  | nil => simp [sumAmounts]
  | cons p t ih =>
    by_cases hc : isComplete p = true
    · by_cases h19 : p.ust = 19
      · simp [List.foldl_cons, hc, h19, ih, sumAmounts, sel19, sel7, sel0, List.filter_cons]
        ring
      · by_cases h7 : p.ust = 7
        · simp [List.foldl_cons, hc, h19, h7, ih, sumAmounts, sel19, sel7, sel0, List.filter_cons]
          ring
        · simp [List.foldl_cons, hc, h19, h7, ih, sumAmounts, sel19, sel7, sel0, List.filter_cons]
          ring
    · simp [List.foldl_cons, hc, ih, sumAmounts, sel19, sel7, sel0, List.filter_cons]

theorem computeBuckets_eq (positionen : List Position) :
    computeBuckets positionen
      = { netto19 := sumAmounts sel19 positionen
          netto7 := sumAmounts sel7 positionen
          netto0 := sumAmounts sel0 positionen } := by
  have h := computeBuckets_go positionen { netto19 := 0, netto7 := 0, netto0 := 0 }
  simpa [computeBuckets] using h

/-- String append is associative (used to reassociate template concatenations). -/
theorem strAppendAssoc (a b c : String) : a ++ b ++ c = a ++ (b ++ c) := by
  apply String.ext
  simp [String.data_append]

theorem sumAmounts_split (positionen : List Position) :
    sumAmounts isComplete positionen
      = sumAmounts sel19 positionen + sumAmounts sel7 positionen + sumAmounts sel0 positionen := by
  induction positionen with
  | nil => simp [sumAmounts]
  | cons p t ih =>
    by_cases hc : isComplete p = true
    · by_cases h19 : p.ust = 19
      · simp [sumAmounts, List.filter_cons, hc, h19, sel19, sel7, sel0] at ih ⊢
        rw [ih]; ring
      · by_cases h7 : p.ust = 7
        · simp [sumAmounts, List.filter_cons, hc, h19, h7, sel19, sel7, sel0] at ih ⊢
          rw [ih]; ring
        · simp [sumAmounts, List.filter_cons, hc, h19, h7, sel19, sel7, sel0] at ih ⊢
          rw [ih]; ring
    · simp [sumAmounts, List.filter_cons, hc, sel19, sel7, sel0] at ih ⊢
      exact ih

theorem calculateSummen_go (positionen : List Position) (acc : Summen) :
    positionen.foldl
      (fun acc pos =>
        if isComplete pos then
          let betrag := pos.menge * pos.preis
          { netto := acc.netto + betrag
            lohn := if pos.typ = PositionTyp.L then acc.lohn + betrag else acc.lohn
            material := if pos.typ = PositionTyp.M then acc.material + betrag else acc.material
            ust19 := if pos.ust = 19 then acc.ust19 + betrag * (19/100) else acc.ust19
            ust7 := if pos.ust = 7 then acc.ust7 + betrag * (7/100) else acc.ust7 }
        else acc) acc
    = { netto := acc.netto + sumAmounts isComplete positionen
        lohn := acc.lohn + sumAmounts selL positionen
        material := acc.material + sumAmounts selM positionen
        ust19 := acc.ust19 + sumAmounts sel19 positionen * (19/100)
        ust7 := acc.ust7 + sumAmounts sel7 positionen * (7/100) } := by
  induction positionen generalizing acc with
  | nil => simp [sumAmounts]
  | cons p t ih =>
    by_cases hc : isComplete p = true
    · rw [List.foldl_cons, ih]
      simp only [hc, if_true]
      refine Summen.mk.injEq .. ▸ ?_
      simp [sumAmounts, List.filter_cons, hc, sel19, sel7, sel0, selL, selM]
      constructor
      · ring
      constructor
      · by_cases hL : p.typ = PositionTyp.L
        · simp [hL]; ring
        · simp [hL]
      constructor
      · by_cases hM : p.typ = PositionTyp.M
        · simp [hM]; ring
        · simp [hM]
      constructor
      · by_cases h19 : p.ust = 19
        · simp [h19]; ring
        · simp [h19]
      · by_cases h7 : p.ust = 7
        · simp [h7]; ring
        · simp [h7]
    · rw [List.foldl_cons, ih]
      simp [sumAmounts, List.filter_cons, hc, sel19, sel7, sel0, selL, selM]

/-- C2: the display-path aggregation `calculateSummen` agrees with the
aggregates computed (identically) inside both XML generators: its `netto`
equals the generators' net total, its `ust19` / `ust7` equal the generators'
VAT amounts for the 19 % and 7 % buckets, and `netto + ust19 + ust7` equals
the generators' gross total — for every list of positions, exactly, in the
exact-rational model of JavaScript numbers. -/
theorem calculateSummen_agrees_generators (positionen : List Position) :
    (calculateSummen positionen).netto = nettoGesamt (computeBuckets positionen)
  ∧ (calculateSummen positionen).ust19 = ust19Amt (computeBuckets positionen)
  ∧ (calculateSummen positionen).ust7 = ust7Amt (computeBuckets positionen)
  ∧ (calculateSummen positionen).netto + (calculateSummen positionen).ust19
      + (calculateSummen positionen).ust7 = brutto (computeBuckets positionen) := by
  have h := calculateSummen_go positionen
    { netto := 0, lohn := 0, material := 0, ust19 := 0, ust7 := 0 }
  have hsum : calculateSummen positionen
      = { netto := sumAmounts isComplete positionen
          lohn := sumAmounts selL positionen
          material := sumAmounts selM positionen
          ust19 := sumAmounts sel19 positionen * (19/100)
          ust7 := sumAmounts sel7 positionen * (7/100) } := by
    simpa [calculateSummen] using h
  rw [hsum, computeBuckets_eq]
  refine ⟨?_, rfl, rfl, ?_⟩
  · simp [nettoGesamt, sumAmounts_split]
  · simp [brutto, nettoGesamt, ust19Amt, ust7Amt, sumAmounts_split]

theorem computeBuckets_skip (ps1 ps2 : List Position) (p : Position)
    (h : isComplete p = false) :
    computeBuckets (ps1 ++ p :: ps2) = computeBuckets (ps1 ++ ps2) := by
  simp [computeBuckets, List.foldl_append, List.foldl_cons, h]

theorem calculateSummen_skip (ps1 ps2 : List Position) (p : Position)
    (h : isComplete p = false) :
    calculateSummen (ps1 ++ p :: ps2) = calculateSummen (ps1 ++ ps2) := by
  simp [calculateSummen, List.foldl_append, List.foldl_cons, h]

theorem ublPositionenXML_skip (ps1 ps2 : List Position) (p : Position)
    (h : isComplete p = false) :
    ublPositionenXML (ps1 ++ p :: ps2) = ublPositionenXML (ps1 ++ ps2) := by
  simp [ublPositionenXML, List.foldl_append, List.foldl_cons, h]

theorem ciiLineItems_skip (ps1 ps2 : List Position) (p : Position)
    (h : isComplete p = false) :
    ciiLineItems (ps1 ++ p :: ps2) = ciiLineItems (ps1 ++ ps2) := by
  simp [ciiLineItems, List.foldl_append, List.foldl_cons, h]

/-- C3: an incomplete line item (empty description, or quantity ≤ 0, or
price ≤ 0, i.e. `isComplete` is false) contributes zero to every aggregate
and produces no line element in either generator: inserting it anywhere
leaves the bucket aggregates, the display totals, and both generated XML
strings (hence their `InvoiceLine` / `IncludedSupplyChainTradeLineItem`
elements) unchanged. Both generators and the aggregation are total Lean
functions, so no error can be raised. -/
theorem incomplete_line_invisible (rechnung : Rechnung) (verkaeufer : Verkaeufer)
    (kaeufer : Kaeufer) (ps1 ps2 : List Position) (p : Position)
    (h : isComplete p = false) :
    computeBuckets (ps1 ++ p :: ps2) = computeBuckets (ps1 ++ ps2)
  ∧ calculateSummen (ps1 ++ p :: ps2) = calculateSummen (ps1 ++ ps2)
  ∧ generateXRechnungXML rechnung verkaeufer kaeufer (ps1 ++ p :: ps2)
      = generateXRechnungXML rechnung verkaeufer kaeufer (ps1 ++ ps2)
  ∧ generateZUGFeRDXML rechnung verkaeufer kaeufer (ps1 ++ p :: ps2)
      = generateZUGFeRDXML rechnung verkaeufer kaeufer (ps1 ++ ps2) := by
  refine ⟨computeBuckets_skip ps1 ps2 p h, calculateSummen_skip ps1 ps2 p h, ?_, ?_⟩
  · simp only [generateXRechnungXML, computeBuckets_skip ps1 ps2 p h,
      ublPositionenXML_skip ps1 ps2 p h]
  · simp only [generateZUGFeRDXML, computeBuckets_skip ps1 ps2 p h,
      ciiLineItems_skip ps1 ps2 p h]

/-- Witness for C3 at a concrete input: a line with empty description
between two states of the scenario-1 model. -/
theorem incomplete_line_invisible_witness :
    isComplete exPosIncomplete = false
  ∧ (computeBuckets ([exPos] ++ exPosIncomplete :: []) = computeBuckets ([exPos] ++ [])
  ∧ calculateSummen ([exPos] ++ exPosIncomplete :: []) = calculateSummen ([exPos] ++ [])
  ∧ generateXRechnungXML exRechnung exVerkaeufer exKaeufer ([exPos] ++ exPosIncomplete :: [])
      = generateXRechnungXML exRechnung exVerkaeufer exKaeufer ([exPos] ++ [])
  ∧ generateZUGFeRDXML exRechnung exVerkaeufer exKaeufer ([exPos] ++ exPosIncomplete :: [])
      = generateZUGFeRDXML exRechnung exVerkaeufer exKaeufer ([exPos] ++ [])) :=
  ⟨by decide,
   incomplete_line_invisible exRechnung exVerkaeufer exKaeufer [exPos] [] exPosIncomplete
     (by decide)⟩

/-- C9: the `ValidationResult` of `validateXRechnung` satisfies
`isValid = true` exactly when the errors list is empty; `isValid` is computed
from the errors list alone, so warnings and infos can never affect it. -/
theorem isValid_iff_no_errors (rechnung : Rechnung) (verkaeufer : Verkaeufer)
    (kaeufer : Kaeufer) (positionen : List Position) :
    (validateXRechnung rechnung verkaeufer kaeufer positionen).isValid = true
      ↔ (validateXRechnung rechnung verkaeufer kaeufer positionen).errors = [] := by
  simp [validateXRechnung, List.length_eq_zero]

/-- C1: for every list of line items, the aggregates computed (by the
textually identical loop) inside both generators satisfy
net total = net19 + net7 + net0 and
gross total = net total + net19 × 0.19 + net7 × 0.07, where net19, net7 and
net0 are the sums of quantity × unit price over complete lines with tax rate
19, 7, and any other value respectively; and exactly these values are
serialized (via `toFixed(2)`) into the `LegalMonetaryTotal` element of the
UBL output and the `SpecifiedTradeSettlementHeaderMonetarySummation` element
of the CII output. -/
theorem generator_aggregation_correct (rechnung : Rechnung) (verkaeufer : Verkaeufer)
    (kaeufer : Kaeufer) (positionen : List Position) :
    (computeBuckets positionen).netto19 = sumAmounts sel19 positionen
  ∧ (computeBuckets positionen).netto7 = sumAmounts sel7 positionen
  ∧ (computeBuckets positionen).netto0 = sumAmounts sel0 positionen
  ∧ nettoGesamt (computeBuckets positionen)
      = (computeBuckets positionen).netto19 + (computeBuckets positionen).netto7
        + (computeBuckets positionen).netto0
  ∧ brutto (computeBuckets positionen)
      = nettoGesamt (computeBuckets positionen)
        + (computeBuckets positionen).netto19 * (19/100)
        + (computeBuckets positionen).netto7 * (7/100)
  ∧ (∃ a c, generateXRechnungXML rechnung verkaeufer kaeufer positionen
      = a ++ ublMonetaryTotal (computeBuckets positionen) ++ c)
  ∧ (∃ a c, generateZUGFeRDXML rechnung verkaeufer kaeufer positionen
      = a ++ ciiMonetarySummation (computeBuckets positionen) ++ c) := by
  refine ⟨?_, ?_, ?_, rfl, rfl, ?_, ?_⟩
  · rw [computeBuckets_eq]
  · rw [computeBuckets_eq]
  · rw [computeBuckets_eq]
  · refine ⟨"<?xml version=\"1.0\" encoding=\"UTF-8\"?>\n<Invoice xmlns=\"urn:oasis:names:specification:ubl:schema:xsd:Invoice-2\"\n         xmlns:cac=\"urn:oasis:names:specification:ubl:schema:xsd:CommonAggregateComponents-2\"\n         xmlns:cbc=\"urn:oasis:names:specification:ubl:schema:xsd:CommonBasicComponents-2\">\n    <cbc:CustomizationID>urn:cen.eu:en16931:2017#compliant#urn:xoev-de:kosit:standard:xrechnung_3.0</cbc:CustomizationID>\n    <cbc:ProfileID>urn:fdc:peppol.eu:2017:poacc:billing:01:1.0</cbc:ProfileID>\n    <cbc:ID>"
            ++ escapeXML rechnung.nummer
            ++ "</cbc:ID>\n    <cbc:IssueDate>"
            ++ rechnung.datum
            ++ "</cbc:IssueDate>\n    "
            ++ (if rechnung.faelligkeit != "" then
                  "<cbc:DueDate>" ++ rechnung.faelligkeit ++ "</cbc:DueDate>"
                else "")
            ++ "\n    <cbc:InvoiceTypeCode>"
            ++ rechnung.art.take 3
            ++ "</cbc:InvoiceTypeCode>\n    <cbc:DocumentCurrencyCode>EUR</cbc:DocumentCurrencyCode>\n    "
            ++ ublBuyerReference rechnung
            ++ "\n    <cac:AccountingSupplierParty><cac:Party>\n        <cac:PostalAddress>\n            <cbc:StreetName>"
            ++ escapeXML verkaeufer.strasse
            ++ "</cbc:StreetName>\n            <cbc:CityName>"
            ++ escapeXML verkaeufer.ort
            ++ "</cbc:CityName>\n            <cbc:PostalZone>"
            ++ escapeXML verkaeufer.plz
            ++ "</cbc:PostalZone>\n            <cac:Country><cbc:IdentificationCode>DE</cbc:IdentificationCode></cac:Country>\n        </cac:PostalAddress>\n        "
            ++ (if verkaeufer.ustId != "" then
                  "<cac:PartyTaxScheme><cbc:CompanyID>"
                    ++ escapeXML verkaeufer.ustId
                    ++ "</cbc:CompanyID><cac:TaxScheme><cbc:ID>VAT</cbc:ID></cac:TaxScheme></cac:PartyTaxScheme>"
                else "")
            ++ "\n        <cac:PartyLegalEntity><cbc:RegistrationName>"
            ++ escapeXML verkaeufer.firma
            ++ "</cbc:RegistrationName></cac:PartyLegalEntity>\n    </cac:Party></cac:AccountingSupplierParty>\n    <cac:AccountingCustomerParty><cac:Party>\n        <cac:PostalAddress>\n            <cbc:StreetName>"
            ++ escapeXML kaeufer.strasse
            ++ "</cbc:StreetName>\n            <cbc:CityName>"
            ++ escapeXML kaeufer.ort
            ++ "</cbc:CityName>\n            <cbc:PostalZone>"
            ++ escapeXML kaeufer.plz
            ++ "</cbc:PostalZone>\n            <cac:Country><cbc:IdentificationCode>DE</cbc:IdentificationCode></cac:Country>\n        </cac:PostalAddress>\n        "
            ++ (if kaeufer.ustId != "" then
                  "<cac:PartyTaxScheme><cbc:CompanyID>"
                    ++ escapeXML kaeufer.ustId
                    ++ "</cbc:CompanyID><cac:TaxScheme><cbc:ID>VAT</cbc:ID></cac:TaxScheme></cac:PartyTaxScheme>"
                else "")
            ++ "\n        <cac:PartyLegalEntity><cbc:RegistrationName>"
            ++ escapeXML kaeufer.firma
            ++ "</cbc:RegistrationName></cac:PartyLegalEntity>\n    </cac:Party></cac:AccountingCustomerParty>\n    "
            ++ (if verkaeufer.iban != "" then
                  "<cac:PaymentMeans><cbc:PaymentMeansCode>58</cbc:PaymentMeansCode><cac:PayeeFinancialAccount><cbc:ID>"
                    ++ stripSpaces verkaeufer.iban
                    ++ "</cbc:ID></cac:PayeeFinancialAccount></cac:PaymentMeans>"
                else "")
            ++ "\n    <cac:TaxTotal><cbc:TaxAmount currencyID=\"EUR\">"
            ++ toFixed2 (ust19Amt (computeBuckets positionen) + ust7Amt (computeBuckets positionen))
            ++ "</cbc:TaxAmount>"
            ++ ublTaxSubtotals (computeBuckets positionen)
            ++ "</cac:TaxTotal>\n    ",
      ublPositionenXML positionen ++ "\n</Invoice>", ?_⟩
    simp only [generateXRechnungXML, strAppendAssoc]
  · refine ⟨"<?xml version=\"1.0\" encoding=\"UTF-8\"?>\n<rsm:CrossIndustryInvoice xmlns:rsm=\"urn:un:unece:uncefact:data:standard:CrossIndustryInvoice:100\"\n    xmlns:qdt=\"urn:un:unece:uncefact:data:standard:QualifiedDataType:100\"\n    xmlns:ram=\"urn:un:unece:uncefact:data:standard:ReusableAggregateBusinessInformationEntity:100\"\n    xmlns:xs=\"http://www.w3.org/2001/XMLSchema\"\n    xmlns:udt=\"urn:un:unece:uncefact:data:standard:UnqualifiedDataType:100\">\n    <rsm:ExchangedDocumentContext>\n        <ram:GuidelineSpecifiedDocumentContextParameter>\n            <ram:ID>urn:cen.eu:en16931:2017#conformant#urn:factur-x.eu:1p0:comfort</ram:ID>\n        </ram:GuidelineSpecifiedDocumentContextParameter>\n    </rsm:ExchangedDocumentContext>\n    <rsm:ExchangedDocument>\n        <ram:ID>"
            ++ escapeXML rechnung.nummer
            ++ "</ram:ID>\n        <ram:TypeCode>"
            ++ (jsOr (rechnung.art.take 3) "380")
            ++ "</ram:TypeCode>\n        <ram:IssueDateTime>\n            <udt:DateTimeString format=\"102\">"
            ++ formatCIIDate rechnung.datum
            ++ "</udt:DateTimeString>\n        </ram:IssueDateTime>\n    </rsm:ExchangedDocument>\n    <rsm:SupplyChainTradeTransaction>"
            ++ ciiLineItems positionen
            ++ "\n        <ram:ApplicableHeaderTradeAgreement>\n            "
            ++ (if rechnung.leitwegId != "" then
                  "<ram:BuyerReference>" ++ escapeXML rechnung.leitwegId ++ "</ram:BuyerReference>"
                else "")
            ++ "\n            <ram:SellerTradeParty>\n                <ram:Name>"
            ++ escapeXML verkaeufer.firma
            ++ "</ram:Name>\n                <ram:PostalTradeAddress>\n                    <ram:PostcodeCode>"
            ++ escapeXML verkaeufer.plz
            ++ "</ram:PostcodeCode>\n                    <ram:LineOne>"
            ++ escapeXML verkaeufer.strasse
            ++ "</ram:LineOne>\n                    <ram:CityName>"
            ++ escapeXML verkaeufer.ort
            ++ "</ram:CityName>\n                    <ram:CountryID>DE</ram:CountryID>\n                </ram:PostalTradeAddress>\n                "
            ++ (if verkaeufer.email != "" then
                  "<ram:URIUniversalCommunication>\n                    <ram:URIID schemeID=\"EM\">"
                    ++ escapeXML verkaeufer.email
                    ++ "</ram:URIID>\n                </ram:URIUniversalCommunication>"
                else "")
            ++ "\n                "
            ++ (if verkaeufer.ustId != "" then
                  "<ram:SpecifiedTaxRegistration>\n                    <ram:ID schemeID=\"VA\">"
                    ++ escapeXML verkaeufer.ustId
                    ++ "</ram:ID>\n                </ram:SpecifiedTaxRegistration>"
                else "")
            ++ "\n                "
            ++ (if verkaeufer.steuernummer != "" then
                  "<ram:SpecifiedTaxRegistration>\n                    <ram:ID schemeID=\"FC\">"
                    ++ escapeXML verkaeufer.steuernummer
                    ++ "</ram:ID>\n                </ram:SpecifiedTaxRegistration>"
                else "")
            ++ "\n            </ram:SellerTradeParty>\n            <ram:BuyerTradeParty>\n                <ram:Name>"
            ++ escapeXML kaeufer.firma
            ++ "</ram:Name>\n                <ram:PostalTradeAddress>\n                    <ram:PostcodeCode>"
            ++ escapeXML kaeufer.plz
            ++ "</ram:PostcodeCode>\n                    <ram:LineOne>"
            ++ escapeXML kaeufer.strasse
            ++ "</ram:LineOne>\n                    <ram:CityName>"
            ++ escapeXML kaeufer.ort
            ++ "</ram:CityName>\n                    <ram:CountryID>DE</ram:CountryID>\n                </ram:PostalTradeAddress>\n                "
            ++ (if kaeufer.email != "" then
                  "<ram:URIUniversalCommunication>\n                    <ram:URIID schemeID=\"EM\">"
                    ++ escapeXML kaeufer.email
                    ++ "</ram:URIID>\n                </ram:URIUniversalCommunication>"
                else "")
            ++ "\n                "
            ++ (if kaeufer.ustId != "" then
                  "<ram:SpecifiedTaxRegistration>\n                    <ram:ID schemeID=\"VA\">"
                    ++ escapeXML kaeufer.ustId
                    ++ "</ram:ID>\n                </ram:SpecifiedTaxRegistration>"
                else "")
            ++ "\n            </ram:BuyerTradeParty>\n            "
            ++ (if rechnung.bestellnummer != "" then
                  "<ram:BuyerOrderReferencedDocument>\n                <ram:IssuerAssignedID>"
                    ++ escapeXML rechnung.bestellnummer
                    ++ "</ram:IssuerAssignedID>\n            </ram:BuyerOrderReferencedDocument>"
                else "")
            ++ "\n        </ram:ApplicableHeaderTradeAgreement>\n        <ram:ApplicableHeaderTradeDelivery>\n            "
            ++ (if rechnung.leistungszeitraum != "" then
                  "<ram:ActualDeliverySupplyChainEvent>\n                <ram:OccurrenceDateTime>\n                    <udt:DateTimeString format=\"102\">"
                    ++ formatCIIDate rechnung.datum
                    ++ "</udt:DateTimeString>\n                </ram:OccurrenceDateTime>\n            </ram:ActualDeliverySupplyChainEvent>"
                else "")
            ++ "\n        </ram:ApplicableHeaderTradeDelivery>\n        <ram:ApplicableHeaderTradeSettlement>\n            <ram:InvoiceCurrencyCode>EUR</ram:InvoiceCurrencyCode>\n            "
            ++ (if verkaeufer.iban != "" then
                  "<ram:SpecifiedTradeSettlementPaymentMeans>\n                <ram:TypeCode>58</ram:TypeCode>\n                <ram:PayeePartyCreditorFinancialAccount>\n                    <ram:IBANID>"
                    ++ stripSpaces verkaeufer.iban
                    ++ "</ram:IBANID>\n                </ram:PayeePartyCreditorFinancialAccount>\n                "
                    ++ (if verkaeufer.bic != "" then
                          "<ram:PayeeSpecifiedCreditorFinancialInstitution>\n                    <ram:BICID>"
                            ++ stripSpaces verkaeufer.bic
                            ++ "</ram:BICID>\n                </ram:PayeeSpecifiedCreditorFinancialInstitution>"
                        else "")
                    ++ "\n            </ram:SpecifiedTradeSettlementPaymentMeans>"
                else "")
            ++ ciiTaxBreakdown (computeBuckets positionen)
            ++ "\n            "
            ++ (if rechnung.faelligkeit != "" then
                  "<ram:SpecifiedTradePaymentTerms>\n                <ram:DueDateDateTime>\n                    <udt:DateTimeString format=\"102\">"
                    ++ formatCIIDate rechnung.faelligkeit
                    ++ "</udt:DateTimeString>\n                </ram:DueDateDateTime>\n            </ram:SpecifiedTradePaymentTerms>"
                else "")
            ++ "\n            ",
      "\n        </ram:ApplicableHeaderTradeSettlement>\n    </rsm:SupplyChainTradeTransaction>\n</rsm:CrossIndustryInvoice>", ?_⟩
    simp only [generateZUGFeRDXML, strAppendAssoc]

set_option maxRecDepth 100000 in
/-- C4 (evidence of the escaping gap): in the UBL generator the Leitweg-ID is
interpolated into `BuyerReference` without `escapeXML`, so an ampersand from
that user-supplied field reaches the output raw — while the CII generator
escapes the very same field. -/
theorem ubl_leitwegId_unescaped :
    exRechnungAmp.leitwegId = "99&9-11"
  ∧ containsSub (generateXRechnungXML exRechnungAmp exVerkaeufer exKaeufer [exPos])
      "<cbc:BuyerReference>99&9-11</cbc:BuyerReference>" = true
  ∧ escapeXML "99&9-11" = "99&amp;9-11"
  ∧ containsSub (generateZUGFeRDXML exRechnungAmp exVerkaeufer exKaeufer [exPos])
      "<ram:BuyerReference>99&amp;9-11</ram:BuyerReference>" = true := by
  refine ⟨rfl, ?_, rfl, ?_⟩ <;> decide

set_option maxRecDepth 100000 in
/-- C5 counterexample: with an empty Leitweg-ID and buyer customer number
"K-123", the UBL `BuyerReference` is the literal "n/a" and the customer
number appears nowhere in the output, contradicting the claimed fallback to
the buyer's customer reference number. -/
theorem buyerReference_no_kundennummer_fallback :
    exKaeuferKdNr.kundennummer = "K-123"
  ∧ exRechnung.leitwegId = ""
  ∧ containsSub (generateXRechnungXML exRechnung exVerkaeufer exKaeuferKdNr [exPos])
      "<cbc:BuyerReference>n/a</cbc:BuyerReference>" = true
  ∧ containsSub (generateXRechnungXML exRechnung exVerkaeufer exKaeuferKdNr [exPos])
      "K-123" = false := by
  refine ⟨rfl, rfl, ?_, ?_⟩ <;> decide

/-- C5 as amended: the UBL output always carries a non-empty
`BuyerReference` element whose content is the Leitweg-ID when that is
non-empty and the literal "n/a" otherwise; the buyer's customer reference
number is not consulted. -/
theorem buyerReference_leitweg_or_na (rechnung : Rechnung) (verkaeufer : Verkaeufer)
    (kaeufer : Kaeufer) (positionen : List Position) :
    ∃ a c, generateXRechnungXML rechnung verkaeufer kaeufer positionen
        = a ++ ("<cbc:BuyerReference>" ++ jsOr rechnung.leitwegId "n/a"
            ++ "</cbc:BuyerReference>") ++ c
      ∧ jsOr rechnung.leitwegId "n/a" ≠ "" := by
  refine ⟨"<?xml version=\"1.0\" encoding=\"UTF-8\"?>\n<Invoice xmlns=\"urn:oasis:names:specification:ubl:schema:xsd:Invoice-2\"\n         xmlns:cac=\"urn:oasis:names:specification:ubl:schema:xsd:CommonAggregateComponents-2\"\n         xmlns:cbc=\"urn:oasis:names:specification:ubl:schema:xsd:CommonBasicComponents-2\">\n    <cbc:CustomizationID>urn:cen.eu:en16931:2017#compliant#urn:xoev-de:kosit:standard:xrechnung_3.0</cbc:CustomizationID>\n    <cbc:ProfileID>urn:fdc:peppol.eu:2017:poacc:billing:01:1.0</cbc:ProfileID>\n    <cbc:ID>"
            ++ escapeXML rechnung.nummer
            ++ "</cbc:ID>\n    <cbc:IssueDate>"
            ++ rechnung.datum
            ++ "</cbc:IssueDate>\n    "
            ++ (if rechnung.faelligkeit != "" then
                  "<cbc:DueDate>" ++ rechnung.faelligkeit ++ "</cbc:DueDate>"
                else "")
            ++ "\n    <cbc:InvoiceTypeCode>"
            ++ rechnung.art.take 3
            ++ "</cbc:InvoiceTypeCode>\n    <cbc:DocumentCurrencyCode>EUR</cbc:DocumentCurrencyCode>\n    ",
      "\n    <cac:AccountingSupplierParty><cac:Party>\n        <cac:PostalAddress>\n            <cbc:StreetName>"
            ++ escapeXML verkaeufer.strasse
            ++ "</cbc:StreetName>\n            <cbc:CityName>"
            ++ escapeXML verkaeufer.ort
            ++ "</cbc:CityName>\n            <cbc:PostalZone>"
            ++ escapeXML verkaeufer.plz
            ++ "</cbc:PostalZone>\n            <cac:Country><cbc:IdentificationCode>DE</cbc:IdentificationCode></cac:Country>\n        </cac:PostalAddress>\n        "
            ++ (if verkaeufer.ustId != "" then
                  "<cac:PartyTaxScheme><cbc:CompanyID>"
                    ++ escapeXML verkaeufer.ustId
                    ++ "</cbc:CompanyID><cac:TaxScheme><cbc:ID>VAT</cbc:ID></cac:TaxScheme></cac:PartyTaxScheme>"
                else "")
            ++ "\n        <cac:PartyLegalEntity><cbc:RegistrationName>"
            ++ escapeXML verkaeufer.firma
            ++ "</cbc:RegistrationName></cac:PartyLegalEntity>\n    </cac:Party></cac:AccountingSupplierParty>\n    <cac:AccountingCustomerParty><cac:Party>\n        <cac:PostalAddress>\n            <cbc:StreetName>"
            ++ escapeXML kaeufer.strasse
            ++ "</cbc:StreetName>\n            <cbc:CityName>"
            ++ escapeXML kaeufer.ort
            ++ "</cbc:CityName>\n            <cbc:PostalZone>"
            ++ escapeXML kaeufer.plz
            ++ "</cbc:PostalZone>\n            <cac:Country><cbc:IdentificationCode>DE</cbc:IdentificationCode></cac:Country>\n        </cac:PostalAddress>\n        "
            ++ (if kaeufer.ustId != "" then
                  "<cac:PartyTaxScheme><cbc:CompanyID>"
                    ++ escapeXML kaeufer.ustId
                    ++ "</cbc:CompanyID><cac:TaxScheme><cbc:ID>VAT</cbc:ID></cac:TaxScheme></cac:PartyTaxScheme>"
                else "")
            ++ "\n        <cac:PartyLegalEntity><cbc:RegistrationName>"
            ++ escapeXML kaeufer.firma
            ++ "</cbc:RegistrationName></cac:PartyLegalEntity>\n    </cac:Party></cac:AccountingCustomerParty>\n    "
            ++ (if verkaeufer.iban != "" then
                  "<cac:PaymentMeans><cbc:PaymentMeansCode>58</cbc:PaymentMeansCode><cac:PayeeFinancialAccount><cbc:ID>"
                    ++ stripSpaces verkaeufer.iban
                    ++ "</cbc:ID></cac:PayeeFinancialAccount></cac:PaymentMeans>"
                else "")
            ++ "\n    <cac:TaxTotal><cbc:TaxAmount currencyID=\"EUR\">"
            ++ toFixed2 (ust19Amt (computeBuckets positionen) + ust7Amt (computeBuckets positionen))
            ++ "</cbc:TaxAmount>"
            ++ ublTaxSubtotals (computeBuckets positionen)
            ++ "</cac:TaxTotal>\n    "
            ++ ublMonetaryTotal (computeBuckets positionen)
            ++ ublPositionenXML positionen
            ++ "\n</Invoice>", ?_, ?_⟩
  · simp only [generateXRechnungXML, ublBuyerReference, strAppendAssoc]
  · by_cases h : rechnung.leitwegId = ""
    · simp [jsOr, h]
    · simp [jsOr, h]

set_option maxRecDepth 100000 in
/-- C6 counterexample: for the scenario-1 model with a single complete
zero-rated line, the 0 % bucket is nonzero but the UBL output contains no
`TaxSubtotal` element at all and no zero-rated category `Z`. -/
theorem ubl_zero_bucket_has_no_taxSubtotal :
    0 < (computeBuckets [exPosZero]).netto0
  ∧ containsSub (generateXRechnungXML exRechnung exVerkaeufer exKaeufer [exPosZero])
      "<cac:TaxSubtotal>" = false
  ∧ containsSub (generateXRechnungXML exRechnung exVerkaeufer exKaeufer [exPosZero])
      ">Z<" = false := by
  refine ⟨by decide, ?_, ?_⟩ <;> decide

theorem digitChar_ne_Z (m : Nat) : Nat.digitChar m ≠ 'Z' := by
  rcases Nat.lt_or_ge m 16 with h | h
  · interval_cases m <;> decide
  · unfold Nat.digitChar
    rw [if_neg (by omega)]
    rw [if_neg (by omega)]
    rw [if_neg (by omega)]
    rw [if_neg (by omega)]
    rw [if_neg (by omega)]
    rw [if_neg (by omega)]
    rw [if_neg (by omega)]
    rw [if_neg (by omega)]
    rw [if_neg (by omega)]
    rw [if_neg (by omega)]
    rw [if_neg (by omega)]
    rw [if_neg (by omega)]
    rw [if_neg (by omega)]
    rw [if_neg (by omega)]
    rw [if_neg (by omega)]
    rw [if_neg (by omega)]
    decide

theorem toDigitsCore_mem (b : Nat) (f : Nat) :
    ∀ (n : Nat) (l : List Char) (c : Char),
      c ∈ Nat.toDigitsCore b f n l → c ∈ l ∨ ∃ m, c = Nat.digitChar m := by
  induction f with
  | zero =>
    intro n l c h
    exact Or.inl (by simpa [Nat.toDigitsCore] using h)
  | succ f ih =>
    intro n l c h
    simp only [Nat.toDigitsCore] at h
    split at h
    · rcases List.mem_cons.mp h with h1 | h1
      · exact Or.inr ⟨n % b, h1⟩
      · exact Or.inl h1
    · rcases ih _ _ _ h with h1 | h1
      · rcases List.mem_cons.mp h1 with h2 | h2
        · exact Or.inr ⟨n % b, h2⟩
        · exact Or.inl h2
      · exact Or.inr h1

theorem natToString_no_Z (n : Nat) : 'Z' ∉ (toString n).data := by
  intro h
  have h2 : 'Z' ∈ (Nat.toDigits 10 n).asString.data := h
  rcases toDigitsCore_mem 10 _ _ _ _ (by simpa [List.asString, Nat.toDigits] using h2) with h1 | h1
  · simp at h1
  · rcases h1 with ⟨m, hm⟩
    exact digitChar_ne_Z m hm.symm

theorem padIte_no_Z (c : Nat) :
    'Z' ∉ (if c < 10 then "0" ++ toString c else toString c).data := by
  split <;> simp [String.data_append, natToString_no_Z]

/-- `toFixed(2)` output consists of digits, a dot and an optional sign; in
particular it never contains the letter Z. -/
theorem toFixed2_no_Z (q : ℚ) : 'Z' ∉ (toFixed2 q).data := by
  unfold toFixed2
  by_cases hq : q < 0 <;>
    simp [hq, String.data_append, natToString_no_Z, padIte_no_Z]

theorem ublTaxSub19_no_Z (b : Buckets) : 'Z' ∉ (ublTaxSub19 b).data := by
  unfold ublTaxSub19
  intro h
  simp only [String.data_append, List.mem_append] at h
  rcases h with (((h | h) | h) | h) | h
  · exact absurd h (by decide)
  · exact toFixed2_no_Z _ h
  · exact absurd h (by decide)
  · exact toFixed2_no_Z _ h
  · exact absurd h (by decide)

theorem ublTaxSub7_no_Z (b : Buckets) : 'Z' ∉ (ublTaxSub7 b).data := by
  unfold ublTaxSub7
  intro h
  simp only [String.data_append, List.mem_append] at h
  rcases h with (((h | h) | h) | h) | h
  · exact absurd h (by decide)
  · exact toFixed2_no_Z _ h
  · exact absurd h (by decide)
  · exact toFixed2_no_Z _ h
  · exact absurd h (by decide)

/-- The whole UBL tax-subtotal region contains no letter Z: no zero-rated
category can occur among the UBL `TaxSubtotal` elements, for any buckets. -/
theorem ublTaxSubtotals_no_Z (b : Buckets) : 'Z' ∉ (ublTaxSubtotals b).data := by
  unfold ublTaxSubtotals
  intro h
  simp only [String.data_append, List.mem_append] at h
  rcases h with h | h
  · split at h
    · exact ublTaxSub19_no_Z b h
    · simp at h
  · split at h
    · exact ublTaxSub7_no_Z b h
    · simp at h

/-- C6 as amended: for every data model whose complete lines place a nonzero
net amount in the 0 % bucket, it is the CII generator whose tax breakdown
contains the zero-rated `ApplicableTradeTax` block (tax `0.00`, basis
`netto0`, category `Z`, percent `0`), in addition to one block for each of
the 19 % and 7 % buckets that is nonzero; the UBL generator's `TaxTotal`
element is exhibited in full for every such model: its subtotal region is
exactly the 19 % `TaxSubtotal` when that bucket is nonzero followed by the
7 % `TaxSubtotal` when that bucket is nonzero — empty when both are zero,
despite the nonzero 0 % bucket — and never contains a zero-rated category
`Z`. -/
theorem tax_breakdown_blocks (rechnung : Rechnung) (verkaeufer : Verkaeufer)
    (kaeufer : Kaeufer) (positionen : List Position)
    (h0 : 0 < (computeBuckets positionen).netto0) :
    (∃ a c, generateZUGFeRDXML rechnung verkaeufer kaeufer positionen
        = a ++ ciiTaxZ (computeBuckets positionen) ++ c)
  ∧ (0 < (computeBuckets positionen).netto19 →
      ∃ a c, generateZUGFeRDXML rechnung verkaeufer kaeufer positionen
        = a ++ ciiTax19 (computeBuckets positionen) ++ c)
  ∧ (0 < (computeBuckets positionen).netto7 →
      ∃ a c, generateZUGFeRDXML rechnung verkaeufer kaeufer positionen
        = a ++ ciiTax7 (computeBuckets positionen) ++ c)
  ∧ (∃ a c, generateXRechnungXML rechnung verkaeufer kaeufer positionen
        = a ++ ("\n    <cac:TaxTotal><cbc:TaxAmount currencyID=\"EUR\">"
            ++ toFixed2 (ust19Amt (computeBuckets positionen)
                + ust7Amt (computeBuckets positionen))
            ++ "</cbc:TaxAmount>" ++ ublTaxSubtotals (computeBuckets positionen)
            ++ "</cac:TaxTotal>\n    ") ++ c)
  ∧ (0 < (computeBuckets positionen).netto19 → 0 < (computeBuckets positionen).netto7 →
      ublTaxSubtotals (computeBuckets positionen)
        = ublTaxSub19 (computeBuckets positionen) ++ ublTaxSub7 (computeBuckets positionen))
  ∧ (0 < (computeBuckets positionen).netto19 → ¬ 0 < (computeBuckets positionen).netto7 →
      ublTaxSubtotals (computeBuckets positionen) = ublTaxSub19 (computeBuckets positionen))
  ∧ (¬ 0 < (computeBuckets positionen).netto19 → 0 < (computeBuckets positionen).netto7 →
      ublTaxSubtotals (computeBuckets positionen) = ublTaxSub7 (computeBuckets positionen))
  ∧ (¬ 0 < (computeBuckets positionen).netto19 → ¬ 0 < (computeBuckets positionen).netto7 →
      ublTaxSubtotals (computeBuckets positionen) = "")
  ∧ 'Z' ∉ (ublTaxSubtotals (computeBuckets positionen)).data := by
  refine ⟨?_, fun h19 => ?_, fun h7 => ?_, ?_,
    fun h19 h7 => by simp [ublTaxSubtotals, h19, h7],
    fun h19 h7 => by simp [ublTaxSubtotals, h19, h7],
    fun h19 h7 => by simp [ublTaxSubtotals, h19, h7],
    fun h19 h7 => by simp [ublTaxSubtotals, h19, h7],
    ublTaxSubtotals_no_Z (computeBuckets positionen)⟩
  · refine ⟨("<?xml version=\"1.0\" encoding=\"UTF-8\"?>\n<rsm:CrossIndustryInvoice xmlns:rsm=\"urn:un:unece:uncefact:data:standard:CrossIndustryInvoice:100\"\n    xmlns:qdt=\"urn:un:unece:uncefact:data:standard:QualifiedDataType:100\"\n    xmlns:ram=\"urn:un:unece:uncefact:data:standard:ReusableAggregateBusinessInformationEntity:100\"\n    xmlns:xs=\"http://www.w3.org/2001/XMLSchema\"\n    xmlns:udt=\"urn:un:unece:uncefact:data:standard:UnqualifiedDataType:100\">\n    <rsm:ExchangedDocumentContext>\n        <ram:GuidelineSpecifiedDocumentContextParameter>\n            <ram:ID>urn:cen.eu:en16931:2017#conformant#urn:factur-x.eu:1p0:comfort</ram:ID>\n        </ram:GuidelineSpecifiedDocumentContextParameter>\n    </rsm:ExchangedDocumentContext>\n    <rsm:ExchangedDocument>\n        <ram:ID>"
              ++ escapeXML rechnung.nummer
              ++ "</ram:ID>\n        <ram:TypeCode>"
              ++ (jsOr (rechnung.art.take 3) "380")
              ++ "</ram:TypeCode>\n        <ram:IssueDateTime>\n            <udt:DateTimeString format=\"102\">"
              ++ formatCIIDate rechnung.datum
              ++ "</udt:DateTimeString>\n        </ram:IssueDateTime>\n    </rsm:ExchangedDocument>\n    <rsm:SupplyChainTradeTransaction>"
              ++ ciiLineItems positionen
              ++ "\n        <ram:ApplicableHeaderTradeAgreement>\n            "
              ++ (if rechnung.leitwegId != "" then
                    "<ram:BuyerReference>" ++ escapeXML rechnung.leitwegId ++ "</ram:BuyerReference>"
                  else "")
              ++ "\n            <ram:SellerTradeParty>\n                <ram:Name>"
              ++ escapeXML verkaeufer.firma
              ++ "</ram:Name>\n                <ram:PostalTradeAddress>\n                    <ram:PostcodeCode>"
              ++ escapeXML verkaeufer.plz
              ++ "</ram:PostcodeCode>\n                    <ram:LineOne>"
              ++ escapeXML verkaeufer.strasse
              ++ "</ram:LineOne>\n                    <ram:CityName>"
              ++ escapeXML verkaeufer.ort
              ++ "</ram:CityName>\n                    <ram:CountryID>DE</ram:CountryID>\n                </ram:PostalTradeAddress>\n                "
              ++ (if verkaeufer.email != "" then
                    "<ram:URIUniversalCommunication>\n                    <ram:URIID schemeID=\"EM\">"
                      ++ escapeXML verkaeufer.email
                      ++ "</ram:URIID>\n                </ram:URIUniversalCommunication>"
                  else "")
              ++ "\n                "
              ++ (if verkaeufer.ustId != "" then
                    "<ram:SpecifiedTaxRegistration>\n                    <ram:ID schemeID=\"VA\">"
                      ++ escapeXML verkaeufer.ustId
                      ++ "</ram:ID>\n                </ram:SpecifiedTaxRegistration>"
                  else "")
              ++ "\n                "
              ++ (if verkaeufer.steuernummer != "" then
                    "<ram:SpecifiedTaxRegistration>\n                    <ram:ID schemeID=\"FC\">"
                      ++ escapeXML verkaeufer.steuernummer
                      ++ "</ram:ID>\n                </ram:SpecifiedTaxRegistration>"
                  else "")
              ++ "\n            </ram:SellerTradeParty>\n            <ram:BuyerTradeParty>\n                <ram:Name>"
              ++ escapeXML kaeufer.firma
              ++ "</ram:Name>\n                <ram:PostalTradeAddress>\n                    <ram:PostcodeCode>"
              ++ escapeXML kaeufer.plz
              ++ "</ram:PostcodeCode>\n                    <ram:LineOne>"
              ++ escapeXML kaeufer.strasse
              ++ "</ram:LineOne>\n                    <ram:CityName>"
              ++ escapeXML kaeufer.ort
              ++ "</ram:CityName>\n                    <ram:CountryID>DE</ram:CountryID>\n                </ram:PostalTradeAddress>\n                "
              ++ (if kaeufer.email != "" then
                    "<ram:URIUniversalCommunication>\n                    <ram:URIID schemeID=\"EM\">"
                      ++ escapeXML kaeufer.email
                      ++ "</ram:URIID>\n                </ram:URIUniversalCommunication>"
                  else "")
              ++ "\n                "
              ++ (if kaeufer.ustId != "" then
                    "<ram:SpecifiedTaxRegistration>\n                    <ram:ID schemeID=\"VA\">"
                      ++ escapeXML kaeufer.ustId
                      ++ "</ram:ID>\n                </ram:SpecifiedTaxRegistration>"
                  else "")
              ++ "\n            </ram:BuyerTradeParty>\n            "
              ++ (if rechnung.bestellnummer != "" then
                    "<ram:BuyerOrderReferencedDocument>\n                <ram:IssuerAssignedID>"
                      ++ escapeXML rechnung.bestellnummer
                      ++ "</ram:IssuerAssignedID>\n            </ram:BuyerOrderReferencedDocument>"
                  else "")
              ++ "\n        </ram:ApplicableHeaderTradeAgreement>\n        <ram:ApplicableHeaderTradeDelivery>\n            "
              ++ (if rechnung.leistungszeitraum != "" then
                    "<ram:ActualDeliverySupplyChainEvent>\n                <ram:OccurrenceDateTime>\n                    <udt:DateTimeString format=\"102\">"
                      ++ formatCIIDate rechnung.datum
                      ++ "</udt:DateTimeString>\n                </ram:OccurrenceDateTime>\n            </ram:ActualDeliverySupplyChainEvent>"
                  else "")
              ++ "\n        </ram:ApplicableHeaderTradeDelivery>\n        <ram:ApplicableHeaderTradeSettlement>\n            <ram:InvoiceCurrencyCode>EUR</ram:InvoiceCurrencyCode>\n            "
              ++ (if verkaeufer.iban != "" then
                    "<ram:SpecifiedTradeSettlementPaymentMeans>\n                <ram:TypeCode>58</ram:TypeCode>\n                <ram:PayeePartyCreditorFinancialAccount>\n                    <ram:IBANID>"
                      ++ stripSpaces verkaeufer.iban
                      ++ "</ram:IBANID>\n                </ram:PayeePartyCreditorFinancialAccount>\n                "
                      ++ (if verkaeufer.bic != "" then
                            "<ram:PayeeSpecifiedCreditorFinancialInstitution>\n                    <ram:BICID>"
                              ++ stripSpaces verkaeufer.bic
                              ++ "</ram:BICID>\n                </ram:PayeeSpecifiedCreditorFinancialInstitution>"
                          else "")
                      ++ "\n            </ram:SpecifiedTradeSettlementPaymentMeans>"
                  else ""))
        ++ ((if 0 < (computeBuckets positionen).netto19 then
              ciiTax19 (computeBuckets positionen) else "")
          ++ (if 0 < (computeBuckets positionen).netto7 then
              ciiTax7 (computeBuckets positionen) else "")),
      "\n            "
            ++ (if rechnung.faelligkeit != "" then
                  "<ram:SpecifiedTradePaymentTerms>\n                <ram:DueDateDateTime>\n                    <udt:DateTimeString format=\"102\">"
                    ++ formatCIIDate rechnung.faelligkeit
                    ++ "</udt:DateTimeString>\n                </ram:DueDateDateTime>\n            </ram:SpecifiedTradePaymentTerms>"
                else "")
            ++ "\n            "
            ++ ciiMonetarySummation (computeBuckets positionen)
            ++ "\n        </ram:ApplicableHeaderTradeSettlement>\n    </rsm:SupplyChainTradeTransaction>\n</rsm:CrossIndustryInvoice>", ?_⟩
    simp only [generateZUGFeRDXML, ciiTaxBreakdown, h0, if_true, strAppendAssoc]
  · refine ⟨("<?xml version=\"1.0\" encoding=\"UTF-8\"?>\n<rsm:CrossIndustryInvoice xmlns:rsm=\"urn:un:unece:uncefact:data:standard:CrossIndustryInvoice:100\"\n    xmlns:qdt=\"urn:un:unece:uncefact:data:standard:QualifiedDataType:100\"\n    xmlns:ram=\"urn:un:unece:uncefact:data:standard:ReusableAggregateBusinessInformationEntity:100\"\n    xmlns:xs=\"http://www.w3.org/2001/XMLSchema\"\n    xmlns:udt=\"urn:un:unece:uncefact:data:standard:UnqualifiedDataType:100\">\n    <rsm:ExchangedDocumentContext>\n        <ram:GuidelineSpecifiedDocumentContextParameter>\n            <ram:ID>urn:cen.eu:en16931:2017#conformant#urn:factur-x.eu:1p0:comfort</ram:ID>\n        </ram:GuidelineSpecifiedDocumentContextParameter>\n    </rsm:ExchangedDocumentContext>\n    <rsm:ExchangedDocument>\n        <ram:ID>"
              ++ escapeXML rechnung.nummer
              ++ "</ram:ID>\n        <ram:TypeCode>"
              ++ (jsOr (rechnung.art.take 3) "380")
              ++ "</ram:TypeCode>\n        <ram:IssueDateTime>\n            <udt:DateTimeString format=\"102\">"
              ++ formatCIIDate rechnung.datum
              ++ "</udt:DateTimeString>\n        </ram:IssueDateTime>\n    </rsm:ExchangedDocument>\n    <rsm:SupplyChainTradeTransaction>"
              ++ ciiLineItems positionen
              ++ "\n        <ram:ApplicableHeaderTradeAgreement>\n            "
              ++ (if rechnung.leitwegId != "" then
                    "<ram:BuyerReference>" ++ escapeXML rechnung.leitwegId ++ "</ram:BuyerReference>"
                  else "")
              ++ "\n            <ram:SellerTradeParty>\n                <ram:Name>"
              ++ escapeXML verkaeufer.firma
              ++ "</ram:Name>\n                <ram:PostalTradeAddress>\n                    <ram:PostcodeCode>"
              ++ escapeXML verkaeufer.plz
              ++ "</ram:PostcodeCode>\n                    <ram:LineOne>"
              ++ escapeXML verkaeufer.strasse
              ++ "</ram:LineOne>\n                    <ram:CityName>"
              ++ escapeXML verkaeufer.ort
              ++ "</ram:CityName>\n                    <ram:CountryID>DE</ram:CountryID>\n                </ram:PostalTradeAddress>\n                "
              ++ (if verkaeufer.email != "" then
                    "<ram:URIUniversalCommunication>\n                    <ram:URIID schemeID=\"EM\">"
                      ++ escapeXML verkaeufer.email
                      ++ "</ram:URIID>\n                </ram:URIUniversalCommunication>"
                  else "")
              ++ "\n                "
              ++ (if verkaeufer.ustId != "" then
                    "<ram:SpecifiedTaxRegistration>\n                    <ram:ID schemeID=\"VA\">"
                      ++ escapeXML verkaeufer.ustId
                      ++ "</ram:ID>\n                </ram:SpecifiedTaxRegistration>"
                  else "")
              ++ "\n                "
              ++ (if verkaeufer.steuernummer != "" then
                    "<ram:SpecifiedTaxRegistration>\n                    <ram:ID schemeID=\"FC\">"
                      ++ escapeXML verkaeufer.steuernummer
                      ++ "</ram:ID>\n                </ram:SpecifiedTaxRegistration>"
                  else "")
              ++ "\n            </ram:SellerTradeParty>\n            <ram:BuyerTradeParty>\n                <ram:Name>"
              ++ escapeXML kaeufer.firma
              ++ "</ram:Name>\n                <ram:PostalTradeAddress>\n                    <ram:PostcodeCode>"
              ++ escapeXML kaeufer.plz
              ++ "</ram:PostcodeCode>\n                    <ram:LineOne>"
              ++ escapeXML kaeufer.strasse
              ++ "</ram:LineOne>\n                    <ram:CityName>"
              ++ escapeXML kaeufer.ort
              ++ "</ram:CityName>\n                    <ram:CountryID>DE</ram:CountryID>\n                </ram:PostalTradeAddress>\n                "
              ++ (if kaeufer.email != "" then
                    "<ram:URIUniversalCommunication>\n                    <ram:URIID schemeID=\"EM\">"
                      ++ escapeXML kaeufer.email
                      ++ "</ram:URIID>\n                </ram:URIUniversalCommunication>"
                  else "")
              ++ "\n                "
              ++ (if kaeufer.ustId != "" then
                    "<ram:SpecifiedTaxRegistration>\n                    <ram:ID schemeID=\"VA\">"
                      ++ escapeXML kaeufer.ustId
                      ++ "</ram:ID>\n                </ram:SpecifiedTaxRegistration>"
                  else "")
              ++ "\n            </ram:BuyerTradeParty>\n            "
              ++ (if rechnung.bestellnummer != "" then
                    "<ram:BuyerOrderReferencedDocument>\n                <ram:IssuerAssignedID>"
                      ++ escapeXML rechnung.bestellnummer
                      ++ "</ram:IssuerAssignedID>\n            </ram:BuyerOrderReferencedDocument>"
                  else "")
              ++ "\n        </ram:ApplicableHeaderTradeAgreement>\n        <ram:ApplicableHeaderTradeDelivery>\n            "
              ++ (if rechnung.leistungszeitraum != "" then
                    "<ram:ActualDeliverySupplyChainEvent>\n                <ram:OccurrenceDateTime>\n                    <udt:DateTimeString format=\"102\">"
                      ++ formatCIIDate rechnung.datum
                      ++ "</udt:DateTimeString>\n                </ram:OccurrenceDateTime>\n            </ram:ActualDeliverySupplyChainEvent>"
                  else "")
              ++ "\n        </ram:ApplicableHeaderTradeDelivery>\n        <ram:ApplicableHeaderTradeSettlement>\n            <ram:InvoiceCurrencyCode>EUR</ram:InvoiceCurrencyCode>\n            "
              ++ (if verkaeufer.iban != "" then
                    "<ram:SpecifiedTradeSettlementPaymentMeans>\n                <ram:TypeCode>58</ram:TypeCode>\n                <ram:PayeePartyCreditorFinancialAccount>\n                    <ram:IBANID>"
                      ++ stripSpaces verkaeufer.iban
                      ++ "</ram:IBANID>\n                </ram:PayeePartyCreditorFinancialAccount>\n                "
                      ++ (if verkaeufer.bic != "" then
                            "<ram:PayeeSpecifiedCreditorFinancialInstitution>\n                    <ram:BICID>"
                              ++ stripSpaces verkaeufer.bic
                              ++ "</ram:BICID>\n                </ram:PayeeSpecifiedCreditorFinancialInstitution>"
                          else "")
                      ++ "\n            </ram:SpecifiedTradeSettlementPaymentMeans>"
                  else "")),
      (if 0 < (computeBuckets positionen).netto7 then
          ciiTax7 (computeBuckets positionen) else "")
        ++ ((if 0 < (computeBuckets positionen).netto0 then
            ciiTaxZ (computeBuckets positionen) else "")
          ++ "\n            "
            ++ (if rechnung.faelligkeit != "" then
                  "<ram:SpecifiedTradePaymentTerms>\n                <ram:DueDateDateTime>\n                    <udt:DateTimeString format=\"102\">"
                    ++ formatCIIDate rechnung.faelligkeit
                    ++ "</udt:DateTimeString>\n                </ram:DueDateDateTime>\n            </ram:SpecifiedTradePaymentTerms>"
                else "")
            ++ "\n            "
            ++ ciiMonetarySummation (computeBuckets positionen)
            ++ "\n        </ram:ApplicableHeaderTradeSettlement>\n    </rsm:SupplyChainTradeTransaction>\n</rsm:CrossIndustryInvoice>"), ?_⟩
    simp only [generateZUGFeRDXML, ciiTaxBreakdown, h19, if_true, strAppendAssoc]
  · refine ⟨("<?xml version=\"1.0\" encoding=\"UTF-8\"?>\n<rsm:CrossIndustryInvoice xmlns:rsm=\"urn:un:unece:uncefact:data:standard:CrossIndustryInvoice:100\"\n    xmlns:qdt=\"urn:un:unece:uncefact:data:standard:QualifiedDataType:100\"\n    xmlns:ram=\"urn:un:unece:uncefact:data:standard:ReusableAggregateBusinessInformationEntity:100\"\n    xmlns:xs=\"http://www.w3.org/2001/XMLSchema\"\n    xmlns:udt=\"urn:un:unece:uncefact:data:standard:UnqualifiedDataType:100\">\n    <rsm:ExchangedDocumentContext>\n        <ram:GuidelineSpecifiedDocumentContextParameter>\n            <ram:ID>urn:cen.eu:en16931:2017#conformant#urn:factur-x.eu:1p0:comfort</ram:ID>\n        </ram:GuidelineSpecifiedDocumentContextParameter>\n    </rsm:ExchangedDocumentContext>\n    <rsm:ExchangedDocument>\n        <ram:ID>"
              ++ escapeXML rechnung.nummer
              ++ "</ram:ID>\n        <ram:TypeCode>"
              ++ (jsOr (rechnung.art.take 3) "380")
              ++ "</ram:TypeCode>\n        <ram:IssueDateTime>\n            <udt:DateTimeString format=\"102\">"
              ++ formatCIIDate rechnung.datum
              ++ "</udt:DateTimeString>\n        </ram:IssueDateTime>\n    </rsm:ExchangedDocument>\n    <rsm:SupplyChainTradeTransaction>"
              ++ ciiLineItems positionen
              ++ "\n        <ram:ApplicableHeaderTradeAgreement>\n            "
              ++ (if rechnung.leitwegId != "" then
                    "<ram:BuyerReference>" ++ escapeXML rechnung.leitwegId ++ "</ram:BuyerReference>"
                  else "")
              ++ "\n            <ram:SellerTradeParty>\n                <ram:Name>"
              ++ escapeXML verkaeufer.firma
              ++ "</ram:Name>\n                <ram:PostalTradeAddress>\n                    <ram:PostcodeCode>"
              ++ escapeXML verkaeufer.plz
              ++ "</ram:PostcodeCode>\n                    <ram:LineOne>"
              ++ escapeXML verkaeufer.strasse
              ++ "</ram:LineOne>\n                    <ram:CityName>"
              ++ escapeXML verkaeufer.ort
              ++ "</ram:CityName>\n                    <ram:CountryID>DE</ram:CountryID>\n                </ram:PostalTradeAddress>\n                "
              ++ (if verkaeufer.email != "" then
                    "<ram:URIUniversalCommunication>\n                    <ram:URIID schemeID=\"EM\">"
                      ++ escapeXML verkaeufer.email
                      ++ "</ram:URIID>\n                </ram:URIUniversalCommunication>"
                  else "")
              ++ "\n                "
              ++ (if verkaeufer.ustId != "" then
                    "<ram:SpecifiedTaxRegistration>\n                    <ram:ID schemeID=\"VA\">"
                      ++ escapeXML verkaeufer.ustId
                      ++ "</ram:ID>\n                </ram:SpecifiedTaxRegistration>"
                  else "")
              ++ "\n                "
              ++ (if verkaeufer.steuernummer != "" then
                    "<ram:SpecifiedTaxRegistration>\n                    <ram:ID schemeID=\"FC\">"
                      ++ escapeXML verkaeufer.steuernummer
                      ++ "</ram:ID>\n                </ram:SpecifiedTaxRegistration>"
                  else "")
              ++ "\n            </ram:SellerTradeParty>\n            <ram:BuyerTradeParty>\n                <ram:Name>"
              ++ escapeXML kaeufer.firma
              ++ "</ram:Name>\n                <ram:PostalTradeAddress>\n                    <ram:PostcodeCode>"
              ++ escapeXML kaeufer.plz
              ++ "</ram:PostcodeCode>\n                    <ram:LineOne>"
              ++ escapeXML kaeufer.strasse
              ++ "</ram:LineOne>\n                    <ram:CityName>"
              ++ escapeXML kaeufer.ort
              ++ "</ram:CityName>\n                    <ram:CountryID>DE</ram:CountryID>\n                </ram:PostalTradeAddress>\n                "
              ++ (if kaeufer.email != "" then
                    "<ram:URIUniversalCommunication>\n                    <ram:URIID schemeID=\"EM\">"
                      ++ escapeXML kaeufer.email
                      ++ "</ram:URIID>\n                </ram:URIUniversalCommunication>"
                  else "")
              ++ "\n                "
              ++ (if kaeufer.ustId != "" then
                    "<ram:SpecifiedTaxRegistration>\n                    <ram:ID schemeID=\"VA\">"
                      ++ escapeXML kaeufer.ustId
                      ++ "</ram:ID>\n                </ram:SpecifiedTaxRegistration>"
                  else "")
              ++ "\n            </ram:BuyerTradeParty>\n            "
              ++ (if rechnung.bestellnummer != "" then
                    "<ram:BuyerOrderReferencedDocument>\n                <ram:IssuerAssignedID>"
                      ++ escapeXML rechnung.bestellnummer
                      ++ "</ram:IssuerAssignedID>\n            </ram:BuyerOrderReferencedDocument>"
                  else "")
              ++ "\n        </ram:ApplicableHeaderTradeAgreement>\n        <ram:ApplicableHeaderTradeDelivery>\n            "
              ++ (if rechnung.leistungszeitraum != "" then
                    "<ram:ActualDeliverySupplyChainEvent>\n                <ram:OccurrenceDateTime>\n                    <udt:DateTimeString format=\"102\">"
                      ++ formatCIIDate rechnung.datum
                      ++ "</udt:DateTimeString>\n                </ram:OccurrenceDateTime>\n            </ram:ActualDeliverySupplyChainEvent>"
                  else "")
              ++ "\n        </ram:ApplicableHeaderTradeDelivery>\n        <ram:ApplicableHeaderTradeSettlement>\n            <ram:InvoiceCurrencyCode>EUR</ram:InvoiceCurrencyCode>\n            "
              ++ (if verkaeufer.iban != "" then
                    "<ram:SpecifiedTradeSettlementPaymentMeans>\n                <ram:TypeCode>58</ram:TypeCode>\n                <ram:PayeePartyCreditorFinancialAccount>\n                    <ram:IBANID>"
                      ++ stripSpaces verkaeufer.iban
                      ++ "</ram:IBANID>\n                </ram:PayeePartyCreditorFinancialAccount>\n                "
                      ++ (if verkaeufer.bic != "" then
                            "<ram:PayeeSpecifiedCreditorFinancialInstitution>\n                    <ram:BICID>"
                              ++ stripSpaces verkaeufer.bic
                              ++ "</ram:BICID>\n                </ram:PayeeSpecifiedCreditorFinancialInstitution>"
                          else "")
                      ++ "\n            </ram:SpecifiedTradeSettlementPaymentMeans>"
                  else ""))
        ++ (if 0 < (computeBuckets positionen).netto19 then
            ciiTax19 (computeBuckets positionen) else ""),
      (if 0 < (computeBuckets positionen).netto0 then
          ciiTaxZ (computeBuckets positionen) else "")
        ++ "\n            "
            ++ (if rechnung.faelligkeit != "" then
                  "<ram:SpecifiedTradePaymentTerms>\n                <ram:DueDateDateTime>\n                    <udt:DateTimeString format=\"102\">"
                    ++ formatCIIDate rechnung.faelligkeit
                    ++ "</udt:DateTimeString>\n                </ram:DueDateDateTime>\n            </ram:SpecifiedTradePaymentTerms>"
                else "")
            ++ "\n            "
            ++ ciiMonetarySummation (computeBuckets positionen)
            ++ "\n        </ram:ApplicableHeaderTradeSettlement>\n    </rsm:SupplyChainTradeTransaction>\n</rsm:CrossIndustryInvoice>", ?_⟩
    simp only [generateZUGFeRDXML, ciiTaxBreakdown, h7, if_true, strAppendAssoc]
  · refine ⟨"<?xml version=\"1.0\" encoding=\"UTF-8\"?>\n<Invoice xmlns=\"urn:oasis:names:specification:ubl:schema:xsd:Invoice-2\"\n         xmlns:cac=\"urn:oasis:names:specification:ubl:schema:xsd:CommonAggregateComponents-2\"\n         xmlns:cbc=\"urn:oasis:names:specification:ubl:schema:xsd:CommonBasicComponents-2\">\n    <cbc:CustomizationID>urn:cen.eu:en16931:2017#compliant#urn:xoev-de:kosit:standard:xrechnung_3.0</cbc:CustomizationID>\n    <cbc:ProfileID>urn:fdc:peppol.eu:2017:poacc:billing:01:1.0</cbc:ProfileID>\n    <cbc:ID>"
            ++ escapeXML rechnung.nummer
            ++ "</cbc:ID>\n    <cbc:IssueDate>"
            ++ rechnung.datum
            ++ "</cbc:IssueDate>\n    "
            ++ (if rechnung.faelligkeit != "" then
                  "<cbc:DueDate>" ++ rechnung.faelligkeit ++ "</cbc:DueDate>"
                else "")
            ++ "\n    <cbc:InvoiceTypeCode>"
            ++ rechnung.art.take 3
            ++ "</cbc:InvoiceTypeCode>\n    <cbc:DocumentCurrencyCode>EUR</cbc:DocumentCurrencyCode>\n    "
            ++ ublBuyerReference rechnung
            ++ "\n    <cac:AccountingSupplierParty><cac:Party>\n        <cac:PostalAddress>\n            <cbc:StreetName>"
            ++ escapeXML verkaeufer.strasse
            ++ "</cbc:StreetName>\n            <cbc:CityName>"
            ++ escapeXML verkaeufer.ort
            ++ "</cbc:CityName>\n            <cbc:PostalZone>"
            ++ escapeXML verkaeufer.plz
            ++ "</cbc:PostalZone>\n            <cac:Country><cbc:IdentificationCode>DE</cbc:IdentificationCode></cac:Country>\n        </cac:PostalAddress>\n        "
            ++ (if verkaeufer.ustId != "" then
                  "<cac:PartyTaxScheme><cbc:CompanyID>"
                    ++ escapeXML verkaeufer.ustId
                    ++ "</cbc:CompanyID><cac:TaxScheme><cbc:ID>VAT</cbc:ID></cac:TaxScheme></cac:PartyTaxScheme>"
                else "")
            ++ "\n        <cac:PartyLegalEntity><cbc:RegistrationName>"
            ++ escapeXML verkaeufer.firma
            ++ "</cbc:RegistrationName></cac:PartyLegalEntity>\n    </cac:Party></cac:AccountingSupplierParty>\n    <cac:AccountingCustomerParty><cac:Party>\n        <cac:PostalAddress>\n            <cbc:StreetName>"
            ++ escapeXML kaeufer.strasse
            ++ "</cbc:StreetName>\n            <cbc:CityName>"
            ++ escapeXML kaeufer.ort
            ++ "</cbc:CityName>\n            <cbc:PostalZone>"
            ++ escapeXML kaeufer.plz
            ++ "</cbc:PostalZone>\n            <cac:Country><cbc:IdentificationCode>DE</cbc:IdentificationCode></cac:Country>\n        </cac:PostalAddress>\n        "
            ++ (if kaeufer.ustId != "" then
                  "<cac:PartyTaxScheme><cbc:CompanyID>"
                    ++ escapeXML kaeufer.ustId
                    ++ "</cbc:CompanyID><cac:TaxScheme><cbc:ID>VAT</cbc:ID></cac:TaxScheme></cac:PartyTaxScheme>"
                else "")
            ++ "\n        <cac:PartyLegalEntity><cbc:RegistrationName>"
            ++ escapeXML kaeufer.firma
            ++ "</cbc:RegistrationName></cac:PartyLegalEntity>\n    </cac:Party></cac:AccountingCustomerParty>\n    "
            ++ (if verkaeufer.iban != "" then
                  "<cac:PaymentMeans><cbc:PaymentMeansCode>58</cbc:PaymentMeansCode><cac:PayeeFinancialAccount><cbc:ID>"
                    ++ stripSpaces verkaeufer.iban
                    ++ "</cbc:ID></cac:PayeeFinancialAccount></cac:PaymentMeans>"
                else ""),
      ublMonetaryTotal (computeBuckets positionen)
        ++ (ublPositionenXML positionen ++ "\n</Invoice>"), ?_⟩
    simp only [generateXRechnungXML, strAppendAssoc]

set_option maxRecDepth 100000 in
/-- Witness for C6 (amended) at a concrete input with only the 0 % bucket
nonzero: the CII output carries the Z block, and the UBL subtotal region is
empty. -/
theorem tax_breakdown_blocks_witness :
    0 < (computeBuckets [exPosZero]).netto0
  ∧ ((∃ a c, generateZUGFeRDXML exRechnung exVerkaeufer exKaeufer [exPosZero]
        = a ++ ciiTaxZ (computeBuckets [exPosZero]) ++ c)
    ∧ (0 < (computeBuckets [exPosZero]).netto19 →
        ∃ a c, generateZUGFeRDXML exRechnung exVerkaeufer exKaeufer [exPosZero]
          = a ++ ciiTax19 (computeBuckets [exPosZero]) ++ c)
    ∧ (0 < (computeBuckets [exPosZero]).netto7 →
        ∃ a c, generateZUGFeRDXML exRechnung exVerkaeufer exKaeufer [exPosZero]
          = a ++ ciiTax7 (computeBuckets [exPosZero]) ++ c)
    ∧ (∃ a c, generateXRechnungXML exRechnung exVerkaeufer exKaeufer [exPosZero]
          = a ++ ("\n    <cac:TaxTotal><cbc:TaxAmount currencyID=\"EUR\">"
              ++ toFixed2 (ust19Amt (computeBuckets [exPosZero])
                  + ust7Amt (computeBuckets [exPosZero]))
              ++ "</cbc:TaxAmount>" ++ ublTaxSubtotals (computeBuckets [exPosZero])
              ++ "</cac:TaxTotal>\n    ") ++ c)
    ∧ (0 < (computeBuckets [exPosZero]).netto19 → 0 < (computeBuckets [exPosZero]).netto7 →
        ublTaxSubtotals (computeBuckets [exPosZero])
          = ublTaxSub19 (computeBuckets [exPosZero]) ++ ublTaxSub7 (computeBuckets [exPosZero]))
    ∧ (0 < (computeBuckets [exPosZero]).netto19 → ¬ 0 < (computeBuckets [exPosZero]).netto7 →
        ublTaxSubtotals (computeBuckets [exPosZero]) = ublTaxSub19 (computeBuckets [exPosZero]))
    ∧ (¬ 0 < (computeBuckets [exPosZero]).netto19 → 0 < (computeBuckets [exPosZero]).netto7 →
        ublTaxSubtotals (computeBuckets [exPosZero]) = ublTaxSub7 (computeBuckets [exPosZero]))
    ∧ (¬ 0 < (computeBuckets [exPosZero]).netto19 → ¬ 0 < (computeBuckets [exPosZero]).netto7 →
        ublTaxSubtotals (computeBuckets [exPosZero]) = "")
    ∧ 'Z' ∉ (ublTaxSubtotals (computeBuckets [exPosZero])).data) :=
  ⟨by decide, tax_breakdown_blocks exRechnung exVerkaeufer exKaeufer [exPosZero] (by decide)⟩

set_option maxRecDepth 100000 in
/-- C7: the scenario-1 data model with the seller's VAT-ID and tax number
both emptied validates to an errors list with exactly one entry, and that
entry's Business-Term reference is BT-31/BT-32. -/
theorem seller_tax_id_single_error :
    ((validateXRechnung exRechnung exVerkaeuferNoTaxId exKaeufer [exPos]).errors.map
        (fun m => m.btNumber)) = [some "BT-31/BT-32"]
  ∧ (validateXRechnung exRechnung exVerkaeuferNoTaxId exKaeufer [exPos]).errors.length = 1 := by
  refine ⟨?_, ?_⟩ <;> decide

set_option maxRecDepth 100000 in
/-- C10: a model that passes the lightweight export gate `validateFormBasic`
(empty error list) while `validateXRechnung` still reports `isValid = false`
— here because of a malformed seller IBAN, which only the full engine
checks. -/
theorem basic_gate_weaker_than_engine :
    validateFormBasic exRechnung exVerkaeuferBadIban exKaeufer [exPos] = []
  ∧ (validateXRechnung exRechnung exVerkaeuferBadIban exKaeufer [exPos]).isValid = false := by
  refine ⟨?_, ?_⟩ <;> decide

theorem mem_ite_singleton {α : Type} {c : Prop} [Decidable c] {a m : α}
    (h : m ∈ if c then [a] else []) : m = a := by
  split at h
  · simpa using h
  · simp at h

theorem valErrNummer_field (rechnung : Rechnung) :
    ∀ m ∈ valErrNummer rechnung, m.field = some "rechnung.nummer" := by
  intro m h
  unfold valErrNummer at h
  simp [mem_ite_singleton h]

theorem valErrDatum_field (rechnung : Rechnung) :
    ∀ m ∈ valErrDatum rechnung, m.field = some "rechnung.datum" := by
  intro m h
  unfold valErrDatum at h
  split at h
  · simp_all
  · simp [mem_ite_singleton h]

theorem valErrLeitweg_field (rechnung : Rechnung) :
    ∀ m ∈ valErrLeitweg rechnung, m.field = some "rechnung.leitwegId" := by
  intro m h
  unfold valErrLeitweg at h
  simp [mem_ite_singleton h]

theorem valErrVFirma_field (verkaeufer : Verkaeufer) :
    ∀ m ∈ valErrVFirma verkaeufer, m.field = some "verkaeufer.firma" := by
  intro m h
  unfold valErrVFirma at h
  simp [mem_ite_singleton h]

theorem valErrVStrasse_field (verkaeufer : Verkaeufer) :
    ∀ m ∈ valErrVStrasse verkaeufer, m.field = some "verkaeufer.strasse" := by
  intro m h
  unfold valErrVStrasse at h
  simp [mem_ite_singleton h]

theorem valErrVOrt_field (verkaeufer : Verkaeufer) :
    ∀ m ∈ valErrVOrt verkaeufer, m.field = some "verkaeufer.ort" := by
  intro m h
  unfold valErrVOrt at h
  simp [mem_ite_singleton h]

theorem valErrVPlz_field (verkaeufer : Verkaeufer) :
    ∀ m ∈ valErrVPlz verkaeufer, m.field = some "verkaeufer.plz" := by
  intro m h
  unfold valErrVPlz at h
  simp [mem_ite_singleton h]

theorem valErrCO09_field (verkaeufer : Verkaeufer) :
    ∀ m ∈ valErrCO09 verkaeufer, m.field = some "verkaeufer.ustId" := by
  intro m h
  unfold valErrCO09 at h
  simp [mem_ite_singleton h]

theorem valErrIban_field (verkaeufer : Verkaeufer) :
    ∀ m ∈ valErrIban verkaeufer, m.field = some "verkaeufer.iban" := by
  intro m h
  unfold valErrIban at h
  simp [mem_ite_singleton h]

theorem valErrKFirma_field (kaeufer : Kaeufer) :
    ∀ m ∈ valErrKFirma kaeufer, m.field = some "kaeufer.firma" := by
  intro m h
  unfold valErrKFirma at h
  simp [mem_ite_singleton h]

theorem valErrKStrasse_field (kaeufer : Kaeufer) :
    ∀ m ∈ valErrKStrasse kaeufer, m.field = some "kaeufer.strasse" := by
  intro m h
  unfold valErrKStrasse at h
  simp [mem_ite_singleton h]

theorem valErrKOrt_field (kaeufer : Kaeufer) :
    ∀ m ∈ valErrKOrt kaeufer, m.field = some "kaeufer.ort" := by
  intro m h
  unfold valErrKOrt at h
  simp [mem_ite_singleton h]

theorem valErrKPlz_field (kaeufer : Kaeufer) :
    ∀ m ∈ valErrKPlz kaeufer, m.field = some "kaeufer.plz" := by
  intro m h
  unfold valErrKPlz at h
  simp [mem_ite_singleton h]

theorem valErrNoPositions_field (positionen : List Position) :
    ∀ m ∈ valErrNoPositions positionen, m.field = some "positionen" := by
  intro m h
  unfold valErrNoPositions at h
  simp [mem_ite_singleton h, msgBR16]

/-- C8: for every data model whose only line item has quantity 0 but a
non-empty description and positive price, the line is excluded from the
recomputed totals (net total 0 in both the validator's and the generators'
aggregation), `validateXRechnung` reports no per-line error for that line
(no quantity, price or description error), and the errors list contains the
"at least one complete position" rule BR-16 instead. -/
theorem zero_quantity_line_excluded (rechnung : Rechnung) (verkaeufer : Verkaeufer)
    (kaeufer : Kaeufer) (p : Position)
    (h1 : p.menge = 0) (_h2 : p.bezeichnung ≠ "") (_h3 : 0 < p.preis) :
    nettoGesamt (valBuckets [p]) = 0
  ∧ nettoGesamt (computeBuckets [p]) = 0
  ∧ (∀ m ∈ (validateXRechnung rechnung verkaeufer kaeufer [p]).errors,
      m.field ≠ some "positionen.0.menge" ∧ m.field ≠ some "positionen.0.preis"
        ∧ m.field ≠ some "positionen.0.bezeichnung")
  ∧ ∃ m ∈ (validateXRechnung rechnung verkaeufer kaeufer [p]).errors, m.code = "BR-16" := by
  have hc : isComplete p = false := by simp [isComplete, h1]
  have hvp : validPositions [p] = [] := by simp [validPositions, hc]
  have hle : valLineErrors [p] = [] := by simp [valLineErrors, hvp]
  have hnp : valErrNoPositions [p] = [msgBR16] := by
    simp [valErrNoPositions, hvp]
  refine ⟨by simp [valBuckets, hvp, nettoGesamt],
    by simp [computeBuckets, hc, nettoGesamt], ?_, ?_⟩
  · intro m hm
    simp only [validateXRechnung, hle, List.append_nil, List.mem_append] at hm
    rcases hm with ((((((((((((h | h) | h) | h) | h) | h) | h) | h) | h) | h) | h) | h) | h) | h
    · rw [valErrNummer_field rechnung m h]; refine ⟨by decide, by decide, by decide⟩
    · rw [valErrDatum_field rechnung m h]; refine ⟨by decide, by decide, by decide⟩
    · rw [valErrLeitweg_field rechnung m h]; refine ⟨by decide, by decide, by decide⟩
    · rw [valErrVFirma_field verkaeufer m h]; refine ⟨by decide, by decide, by decide⟩
    · rw [valErrVStrasse_field verkaeufer m h]; refine ⟨by decide, by decide, by decide⟩
    · rw [valErrVOrt_field verkaeufer m h]; refine ⟨by decide, by decide, by decide⟩
    · rw [valErrVPlz_field verkaeufer m h]; refine ⟨by decide, by decide, by decide⟩
    · rw [valErrCO09_field verkaeufer m h]; refine ⟨by decide, by decide, by decide⟩
    · rw [valErrIban_field verkaeufer m h]; refine ⟨by decide, by decide, by decide⟩
    · rw [valErrKFirma_field kaeufer m h]; refine ⟨by decide, by decide, by decide⟩
    · rw [valErrKStrasse_field kaeufer m h]; refine ⟨by decide, by decide, by decide⟩
    · rw [valErrKOrt_field kaeufer m h]; refine ⟨by decide, by decide, by decide⟩
    · rw [valErrKPlz_field kaeufer m h]; refine ⟨by decide, by decide, by decide⟩
    · rw [valErrNoPositions_field [p] m h]; refine ⟨by decide, by decide, by decide⟩
  · refine ⟨msgBR16, ?_, rfl⟩
    simp [validateXRechnung, hnp, List.mem_append]

set_option maxRecDepth 100000 in
/-- Witness for C8 at the scenario-3 input: quantity 0, description
"Beratung", price 100. -/
theorem zero_quantity_line_excluded_witness :
    exPosMenge0.menge = 0
  ∧ exPosMenge0.bezeichnung ≠ ""
  ∧ 0 < exPosMenge0.preis
  ∧ (nettoGesamt (valBuckets [exPosMenge0]) = 0
    ∧ nettoGesamt (computeBuckets [exPosMenge0]) = 0
    ∧ (∀ m ∈ (validateXRechnung exRechnung exVerkaeufer exKaeufer [exPosMenge0]).errors,
        m.field ≠ some "positionen.0.menge" ∧ m.field ≠ some "positionen.0.preis"
          ∧ m.field ≠ some "positionen.0.bezeichnung")
    ∧ ∃ m ∈ (validateXRechnung exRechnung exVerkaeufer exKaeufer [exPosMenge0]).errors,
        m.code = "BR-16") :=
  ⟨by decide, by decide, by decide,
   zero_quantity_line_excluded exRechnung exVerkaeufer exKaeufer exPosMenge0
     (by decide) (by decide) (by decide)⟩

end ERechnung
